import Mathlib

/-!
# Shallow embedding of the vtracer integration shims

This file embeds the two Python integration shims of the repository:

* `src/plugins/inkscape/vtracer_vectorize.py` (Inkscape extension), and
* `src/plugins/gimp/vtracer-vectorize/vtracer-vectorize.py` (GIMP plugin).

Both shims are single-pass glue around one external library call
(`vtracer.convert_image_to_svg_py`).  The embedding is functional:

* host- and library-supplied outcomes (does `import vtracer` succeed, what the
  library call returns or raises, what the filesystem contains, whether
  `os.unlink` succeeds, how Python parses a float string, what
  `base64.b64decode` yields) are fields of an explicit environment record;
* every observable side effect (temporary-file creation/deletion, the library
  invocation with its arguments, user-visible error messages, document and
  file mutations) is recorded as an event in a trace;
* an uncaught Python exception is an `Except.error`; a run that returns
  control normally is `Except.ok`.

Numeric values that Python holds as `float` are modelled as `ℚ` (no float
rounding is relevant to any claim; the only arithmetic performed on them is
the nominal scale computation in the Inkscape shim).  Byte strings are
`List Nat`.
-/

/-- Byte content of an image, as read from a file or decoded from base64. -/
abbrev Bytes : Type := List Nat

/-! ## Character/list utilities mirroring the Python string operations used -/

/-- `startsList p l` is `p.isPrefixOf l`: embeds Python `str.startswith`
(on the underlying character lists). -/
def startsList : List Char → List Char → Bool
  | [], _ => true
  | _ :: _, [] => false
  | a :: as, b :: bs => a = b && startsList as bs

/-- Python `str.startswith`. -/
def pyStartsWith (p s : String) : Bool := startsList p.data s.data

/-- Auxiliary for whitespace splitting; `cur` is the reversed current chunk. -/
def splitWsAux : List Char → List Char → List (List Char)
  | cur, [] => if cur = [] then [] else [cur.reverse]
  | cur, c :: cs =>
      if c.isWhitespace then
        if cur = [] then splitWsAux [] cs else cur.reverse :: splitWsAux [] cs
      else splitWsAux (c :: cur) cs

/-- Python `str.split()` with no argument: split on whitespace runs,
discarding empty chunks. -/
def pySplitWs (s : String) : List String := (splitWsAux [] s.data).map fun l => ⟨l⟩

/-- Split on a separator character, keeping empty chunks
(Python `str.split(sep)`). -/
def splitCharAux (sep : Char) : List Char → List Char → List (List Char)
  | cur, [] => [cur.reverse]
  | cur, c :: cs =>
      if c = sep then cur.reverse :: splitCharAux sep [] cs
      else splitCharAux sep (c :: cur) cs

/-- Last chunk of a separator split (e.g. the basename for `/`,
the extension for `.`). -/
def lastChunk (sep : Char) (l : List Char) : List Char :=
  (splitCharAux sep [] l).getLastD []

/-- Python `str.replace(pat, rep)` on character lists: leftmost,
non-overlapping.  Fuel-driven; the fuel is instantiated with the input
length, which bounds the number of steps. -/
def pyReplaceAux (pat rep : List Char) : Nat → List Char → List Char
  | _, [] => []
  | 0, s => s
  | fuel + 1, c :: cs =>
      if startsList pat (c :: cs) ∧ pat ≠ [] then
        rep ++ pyReplaceAux pat rep fuel (List.drop pat.length (c :: cs))
      else
        c :: pyReplaceAux pat rep fuel cs

/-- Python `str.replace`. -/
def pyReplace (s pat rep : String) : String :=
  ⟨pyReplaceAux pat.data rep.data s.data.length s.data⟩

/-- A character in Python's regex class `\w` (ASCII reading). -/
def isWordChar (c : Char) : Bool := c.isAlphanum || c = '_'

/-! ## The argument record of `vtracer.convert_image_to_svg_py`

Both shims call the external library with exactly these keyword arguments
(GIMP lines 221–230, Inkscape lines 193–202). -/

structure VtracerArgs where
  colormode : String
  filter_speckle : Int
  color_precision : Int
  corner_threshold : ℚ
  length_threshold : ℚ
  splice_threshold : ℚ
  path_precision : Int
deriving DecidableEq, Repr

/-! ## Observable events -/

/-- One observable side effect of a shim run. -/
inductive Ev where
  /-- a temporary input file is created at this path -/
  | tmpCreate : String → Ev
  /-- the temporary input file at this path is deleted -/
  | tmpDelete : String → Ev
  /-- `vtracer.convert_image_to_svg_py(path, …args…)` is invoked -/
  | libCall : String → VtracerArgs → Ev
  /-- a user-visible error message (`inkex.errormsg`) -/
  | errMsg : String → Ev
  /-- the vectorized group with this id is inserted into the document -/
  | insertGroup : String → Ev
  /-- the original image element with this id is hidden via its style -/
  | hideImage : String → Ev
  /-- (GIMP) the drawable is exported as PNG to this path -/
  | exportPng : String → Ev
  /-- (GIMP) the SVG text is written to this output file -/
  | fileWrite : String → String → Ev
  /-- (GIMP) `Gimp.message` success note -/
  | gimpMessage : String → Ev
  /-- (GIMP) the output file is opened in the default viewer -/
  | launch : String → Ev
deriving DecidableEq, Repr

/-- Is this event a temporary-file event? -/
def isTmpEv : Ev → Bool
  | .tmpCreate _ => true
  | .tmpDelete _ => true
  | _ => false

/-- Is this event a user-visible error message? -/
def isErrMsg : Ev → Bool
  | .errMsg _ => true
  | _ => false

/-- Is this event a mutation of the host document or an output file? -/
def isMutation : Ev → Bool
  | .insertGroup _ => true
  | .hideImage _ => true
  | .fileWrite _ _ => true
  | _ => false

/-- Is this event an invocation of the external library? -/
def isLibCall : Ev → Bool
  | .libCall _ _ => true
  | _ => false

/-- Count the events satisfying `p`. -/
def countEv (p : Ev → Bool) (tr : List Ev) : Nat := (tr.filter p).length

/-- Step function for the set of live temporary files:
a create adds the path, a delete removes (one occurrence of) it. -/
def liveStep (acc : List String) : Ev → List String
  | .tmpCreate p => acc ++ [p]
  | .tmpDelete p => acc.erase p
  | _ => acc

/-- The temporary files still existing after a trace. -/
def liveTmps (tr : List Ev) : List String := tr.foldl liveStep []

/-- `atMostOneLive acc tr` holds when, starting from live set `acc`, at no
point during `tr` (nor at its end) more than one temporary file is live. -/
def atMostOneLive : List String → List Ev → Bool
  | acc, [] => acc.length ≤ 1
  | acc, e :: es => decide (acc.length ≤ 1) && atMostOneLive (liveStep acc e) es

/-- The temporary-file discipline of a trace: no temporary file survives the
run, at most one is live at any point, and every created one is deleted. -/
def cleanTrace (tr : List Ev) : Prop :=
  liveTmps tr = [] ∧ atMostOneLive [] tr = true ∧
    ∀ q, Ev.tmpCreate q ∈ tr → Ev.tmpDelete q ∈ tr

/-! ## Inkscape shim (`src/plugins/inkscape/vtracer_vectorize.py`) -/

namespace Inkscape

/-- An `<image>` element as the shim reads it: its id, the two href
attributes, geometry attributes (raw strings, as in the XML), and style. -/
structure ImageElem where
  id : String
  xlinkHref : Option String
  plainHref : Option String
  x : Option String
  y : Option String
  width : Option String
  height : Option String
  style : Option String
deriving DecidableEq, Repr

/-- A translate/scale component of an SVG `transform` attribute as the shim
writes it (`translate(x, y)` / `scale(sx, sy)`). -/
inductive Tf where
  | translate : ℚ → ℚ → Tf
  | scale : ℚ → ℚ → Tf
deriving DecidableEq, Repr

/-- The `<g>` the shim builds: its id, its transform list (in attribute
order, leftmost outermost), and the copied path/rect children
(kept opaque — no claim inspects them). -/
structure GroupElem where
  id : String
  transform : List Tf
  children : List String
deriving DecidableEq, Repr

/-- A child of a parent element in the document. -/
inductive Node where
  | image : ImageElem → Node
  | group : GroupElem → Node
  | other : String → Node
deriving DecidableEq, Repr

/-- What the shim reads out of the SVG text returned by the library:
the root `viewBox` attribute and the path/rect elements that the copy loop
(lines 233–249) turns into group children (opaque here). -/
structure SvgDoc where
  viewBox : Option String
  elems : List String
deriving DecidableEq, Repr

/-- Host/library environment of one extension run. -/
structure InkEnv where
  /-- did `import vtracer` succeed -/
  vtracerAvailable : Bool
  /-- `os.path.dirname(self.options.input_file)`, `""` when unset -/
  svgDir : String
  /-- `os.path.exists` + `open(...).read()`: `none` means the path
  does not exist -/
  fileContents : String → Option Bytes
  /-- `base64.b64decode`: `none` means it raises (`binascii.Error`) -/
  b64decode : String → Option Bytes
  /-- Python `float(s)`: `none` means it raises `ValueError` -/
  parseFloat : String → Option ℚ
  /-- name of the `k`-th `NamedTemporaryFile` with the given suffix -/
  tmpName : Nat → String → String
  /-- `vtracer.convert_image_to_svg_py`: `.error e` means it raises with
  `str(exception) = e` -/
  convert : String → VtracerArgs → Except String String
  /-- `lxml.etree.fromstring` plus the viewBox read and the path/rect
  extraction: `.error e` means parsing raises -/
  parseSvg : String → Except String SvgDoc
  /-- does `os.unlink` on this path succeed -/
  unlinkOk : String → Bool
  /-- the parent element (children list) of a selected image -/
  parentOf : ImageElem → List Node

/-- The stringified exception a failing `os.unlink` raises. -/
def unlinkErr : String := "PermissionError: unlink failed"

/-- The stringified exception of `float(...)` on a bad string. -/
def floatErr : String := "ValueError: could not convert string to float"

/-- The stringified exception of `base64.b64decode` on a bad payload. -/
def b64Err : String := "binascii.Error: Invalid base64-encoded string"

/-- The stringified `TypeError` from subscripting `None`
(`settings["colormode"]` when `get_preset_settings` returned `None`). -/
def noneSubscriptErr : String := "'NoneType' object is not subscriptable"

/-- `"data:image/"`, the fixed front of the data-URI regex. -/
def dataUriFront : List Char := "data:image/".data

/-- `";base64,"`, the separator of the data-URI regex. -/
def b64Mark : List Char := ";base64,".data

/-- The regex match `re.match(r'data:image/(\w+);base64,(.+)', href)`
(line 103): on success, the format group and the payload group.  `.+` is
greedy but does not cross a newline, and both groups must be nonempty. -/
def dataUriParse (href : String) : Option (String × String) :=
  let cs := href.data
  if startsList dataUriFront cs then
    let rest := cs.drop dataUriFront.length
    let fmt := rest.takeWhile isWordChar
    let rest2 := rest.drop fmt.length
    if fmt ≠ [] ∧ startsList b64Mark rest2 then
      let payload := (rest2.drop b64Mark.length).takeWhile fun c => c ≠ '\n'
      if payload ≠ [] then some (⟨fmt⟩, ⟨payload⟩) else none
    else none
  else none

/-- `urlparse(href).path` for an href starting with `file://`:
drop the scheme and authority, stop at a query or fragment. -/
def fileUrlPath (h : String) : String :=
  let rest := h.data.drop 7
  ⟨(rest.dropWhile fun c => c ≠ '/').takeWhile fun c => c ≠ '?' ∧ c ≠ '#'⟩

/-- `os.path.splitext(p)[1].lower().replace('.', '')` (lines 115, 126):
the extension of the basename, lowercased, without its dot; `""` when the
basename has no extension (a leading run of dots is not an extension). -/
def extNoDot (p : String) : String :=
  let b := lastChunk '/' p.data
  let dots := (b.takeWhile fun c => c = '.').length
  let core := b.drop dots
  if core.any fun c => c = '.' then ⟨(lastChunk '.' core).map Char.toLower⟩
  else ""

/-- `os.path.join(a, b)` for the cases exercised (POSIX): an absolute `b`
wins; an empty `a` leaves `b`; otherwise a single separator joins them. -/
def pyJoin (a b : String) : String :=
  if pyStartsWith "/" b then b
  else if a = "" then b
  else if a.data.getLast? = some '/' then a ++ b
  else a ++ "/" ++ b

/-- Python `a or b` on two optional string attributes: an absent or empty
first operand falls through to the second. -/
def pyOr (a b : Option String) : Option String :=
  match a with
  | some s => if s = "" then b else some s
  | none => b

/-- `VTracerVectorize.extract_image_data` (lines 93–129).
`.ok none` is the Python `return None, None`; `.ok (some (bytes, fmt))` is a
successful resolution; `.error e` is an uncaught exception (a base64 payload
that fails to decode — the decode call is not inside any `try`). -/
def extract_image_data (env : InkEnv) (img : ImageElem) :
    Except String (Option (Bytes × String)) :=
  match pyOr img.xlinkHref img.plainHref with
  | none => .ok none
  | some h =>
    if h = "" then .ok none
    else if pyStartsWith "data:" h then
      match dataUriParse h with
      | some (fmt, payload) =>
          match env.b64decode payload with
          | some bs => .ok (some (bs, fmt))
          | none => .error b64Err
      | none => .ok none
    else if pyStartsWith "file://" h then
      let fp := fileUrlPath h
      match env.fileContents fp with
      | some bs => .ok (some (bs, extNoDot fp))
      | none => .ok none
    else if ¬ pyStartsWith "http" h then
      let fp := pyJoin env.svgDir h
      match env.fileContents fp with
      | some bs => .ok (some (bs, extNoDot fp))
      | none => .ok none
    else .ok none

/-- `float(image_element.get(attr, 0))`: an absent attribute defaults to
`0`; a present one goes through Python `float`. -/
def attrFloat (env : InkEnv) (a : Option String) : Option ℚ :=
  match a with
  | none => some 0
  | some s => env.parseFloat s

/-- `get_preset_settings` (lines 60–91). -/
def get_preset_settings (preset : String) : Option VtracerArgs :=
  if preset = "bw" then
    some ⟨"binary", 4, 6, 60, 4, 45, 2⟩
  else if preset = "poster" then
    some ⟨"color", 4, 8, 60, 4, 45, 2⟩
  else if preset = "photo" then
    some ⟨"color", 2, 16, 90, 2, 45, 3⟩
  else none

/-- The scale transform computed from the returned SVG's `viewBox` and the
image's `width`/`height` attributes (lines 216–231): empty when any
truthiness or arity check fails or when both scales are 1; `.error` when one
of the `float(...)` conversions raises. -/
def scaleTfs (env : InkEnv) (viewBox width height : Option String) :
    Except String (List Tf) :=
  match viewBox, width, height with
  | some vb, some w, some h =>
    if vb ≠ "" ∧ w ≠ "" ∧ h ≠ "" then
      let parts := pySplitWs vb
      if parts.length = 4 then
        (match env.parseFloat (parts.getD 2 ""), env.parseFloat (parts.getD 3 ""),
              env.parseFloat (pyReplace w "px" ""),
              env.parseFloat (pyReplace h "px" "") with
        | some vbW, some vbH, some imgW, some imgH =>
          let sx := if vbW ≠ 0 then imgW / vbW else 1
          let sy := if vbH ≠ 0 then imgH / vbH else 1
          if sx ≠ 1 ∨ sy ≠ 1 then .ok [Tf.scale sx sy] else .ok []
        | _, _, _, _ => .error floatErr)
      else .ok []
    else .ok []
  | _, _, _ => .ok []

/-- The group the shim builds for one image (lines 208–249): id
`vectorized_<image id>`, a translate when `x ≠ 0 or y ≠ 0`, then the scale
from `scaleTfs`, and the copied children. -/
def buildGroup (env : InkEnv) (img : ImageElem) (x y : ℚ) (doc : SvgDoc) :
    Except String GroupElem :=
  let t0 : List Tf := if x ≠ 0 ∨ y ≠ 0 then [Tf.translate x y] else []
  match scaleTfs env doc.viewBox img.width img.height with
  | .error e => .error e
  | .ok ts => .ok ⟨"vectorized_" ++ img.id, t0 ++ ts, doc.elems⟩

/-- The hidden original image (line 256): style set to `display:none`. -/
def hiddenImg (img : ImageElem) : ImageElem := { img with style := some "display:none" }

/-- Python `list.index`: index of the first occurrence. -/
def pyIndex {α : Type} [DecidableEq α] (t : α) : List α → Option Nat
  | [] => none
  | x :: xs => if x = t then some 0 else (pyIndex t xs).map (· + 1)

/-- Python `list.insert` (clamping past-the-end indices, as Python does). -/
def pyInsert {α : Type} (a : α) : Nat → List α → List α
  | _, [] => [a]
  | 0, l => a :: l
  | n + 1, x :: xs => x :: pyInsert a n xs

/-- Overwrite the element at an index (the style mutation of the found
image object). -/
def pySet {α : Type} (b : α) : Nat → List α → List α
  | _, [] => []
  | 0, _ :: xs => b :: xs
  | n + 1, x :: xs => x :: pySet b n xs

/-- Lines 251–256: insert the group at the image's index (immediately
before it) and hide the image; `none` when `list.index` raises. -/
def insertBefore (parent : List Node) (img : ImageElem) (g : GroupElem) :
    Option (List Node) :=
  match pyIndex (Node.image img) parent with
  | none => none
  | some i =>
      some (pySet (Node.image (hiddenImg img)) (i + 1)
        (pyInsert (Node.group g) i parent))

/-- The `try:` block of `vectorize_image` (lines 191–256): evaluate the
library-call arguments (subscripting a `None` settings raises `TypeError`),
invoke the library, parse its output, build the group, insert it and hide
the image.  Returns the events of the block and either the updated parent
or the stringified exception the block raised. -/
def inkTryBody (env : InkEnv) (img : ImageElem) (settings : Option VtracerArgs)
    (tmp : String) (x y : ℚ) (parent : List Node) :
    List Ev × Except String (List Node) :=
  match settings with
  | none => ([], .error noneSubscriptErr)
  | some args =>
    match env.convert tmp args with
    | .error e => ([Ev.libCall tmp args], .error e)
    | .ok svg =>
      match env.parseSvg svg with
      | .error e => ([Ev.libCall tmp args], .error e)
      | .ok doc =>
        match buildGroup env img x y doc with
        | .error e => ([Ev.libCall tmp args], .error e)
        | .ok g =>
          match insertBefore parent img g with
          | none => ([Ev.libCall tmp args], .error "ValueError: x not in list")
          | some p' =>
              ([Ev.libCall tmp args, Ev.insertGroup g.id, Ev.hideImage img.id],
                .ok p')

/-- The temp-file suffix (line 186): `.{fmt}` when the format is truthy,
else `.png`. -/
def tmpSuffix (fmt : String) : String := if fmt = "" then ".png" else "." ++ fmt

/-- `VTracerVectorize.vectorize_image` (lines 169–264): extract the image
bytes (an unreadable href reports and returns), parse `x`/`y` (failures
propagate — they are outside the `try`), create the temp file, run the
`try` body, report any exception it raised via `errormsg`, and in the
`finally` delete the temp file (a failing unlink propagates). -/
def vectorize_image (env : InkEnv) (k : Nat) (img : ImageElem)
    (settings : Option VtracerArgs) (parent : List Node) :
    List Ev × Except String (List Node) :=
  match extract_image_data env img with
  | .error e => ([], .error e)
  | .ok none => ([Ev.errMsg "Could not read image data from element"], .ok parent)
  | .ok (some (_, fmt)) =>
    match attrFloat env img.x with
    | none => ([], .error floatErr)
    | some x =>
      match attrFloat env img.y with
      | none => ([], .error floatErr)
      | some y =>
        let tmp := env.tmpName k (tmpSuffix fmt)
        let br := inkTryBody env img settings tmp x y parent
        let handled : List Ev × List Node :=
          match br.2 with
          | .ok p' => (br.1, p')
          | .error e =>
              (br.1 ++ [Ev.errMsg ("Error vectorizing image: " ++ e)], parent)
        if env.unlinkOk tmp then
          (Ev.tmpCreate tmp :: handled.1 ++ [Ev.tmpDelete tmp], .ok handled.2)
        else
          (Ev.tmpCreate tmp :: handled.1, .error unlinkErr)

/-- The selected images, in selection order
(`[elem for elem in self.svg.selection if isinstance(elem, Image)]`). -/
def imageNodes (sel : List Node) : List ImageElem :=
  sel.filterMap fun n =>
    match n with
    | .image i => some i
    | _ => none

/-- The parsed extension options (lines 37–49 declare the argparse fields). -/
structure InkOptions where
  colormode : String
  filter_speckle : Int
  color_precision : Int
  corner_threshold : ℚ
  length_threshold : ℚ
  splice_threshold : ℚ
  path_precision : Int
  preset : String
deriving DecidableEq, Repr

/-- Raw command-line options, `none` for a field the invocation left unset. -/
structure InkRawOpts where
  colormode : Option String
  filter_speckle : Option Int
  color_precision : Option Int
  corner_threshold : Option ℚ
  length_threshold : Option ℚ
  splice_threshold : Option ℚ
  path_precision : Option Int
  preset : Option String

/-- Argparse default application, with the defaults declared in
`add_arguments` (lines 40–49). -/
def resolveOpts (r : InkRawOpts) : InkOptions :=
  ⟨r.colormode.getD "color", r.filter_speckle.getD 4, r.color_precision.getD 8,
   r.corner_threshold.getD 60, r.length_threshold.getD 4,
   r.splice_threshold.getD 45, r.path_precision.getD 2, r.preset.getD "custom"⟩

/-- The settings dict built from the options in the `custom` branch
(lines 155–163). -/
def customArgs (o : InkOptions) : VtracerArgs :=
  ⟨o.colormode, o.filter_speckle, o.color_precision, o.corner_threshold,
   o.length_threshold, o.splice_threshold, o.path_precision⟩

/-- The `errormsg` text when vtracer failed to import (lines 133–138). -/
def inkMissingMsg : String :=
  "VTracer is not installed!\n\nPlease install it with:\n  pip install vtracer\n\nThen restart Inkscape."

/-- The `errormsg` text when the selection holds no images (lines 145–148). -/
def noImagesMsg : String :=
  "No images selected!\n\nPlease select one or more raster images (PNG, JPG) to vectorize."

/-- The per-image loop of `effect` (lines 165–167): images processed in
order; an uncaught exception from one image aborts the loop. -/
def effectLoop (env : InkEnv) (settings : Option VtracerArgs) :
    List ImageElem → Nat → List Ev × Except String Unit
  | [], _ => ([], .ok ())
  | img :: rest, k =>
    let r := vectorize_image env k img settings (env.parentOf img)
    match r.2 with
    | .error e => (r.1, .error e)
    | .ok _ =>
      let r2 := effectLoop env settings rest (k + 1)
      (r.1 ++ r2.1, r2.2)

/-- `VTracerVectorize.effect` (lines 131–167): dependency check, selection
check, settings resolution (preset table unless `custom`), then the
per-image loop. -/
def effect (env : InkEnv) (o : InkOptions) (sel : List Node) :
    List Ev × Except String Unit :=
  if env.vtracerAvailable = false then
    ([Ev.errMsg inkMissingMsg], .ok ())
  else
    let images := imageNodes sel
    if images.isEmpty then
      ([Ev.errMsg noImagesMsg], .ok ())
    else
      let settings :=
        if o.preset ≠ "custom" then get_preset_settings o.preset
        else some (customArgs o)
      effectLoop env settings images 0

end Inkscape

/-! ## GIMP shim (`src/plugins/gimp/vtracer-vectorize/vtracer-vectorize.py`) -/

namespace Gimp

/-- GIMP procedure return statuses used by the plugin. -/
inductive PDBStatus where
  | success
  | executionError
  | callingError
  | cancel
deriving DecidableEq, Repr

/-- The procedure-config property values the plugin reads (lines 182–189).
The declared choice default of `path-precision` is `"medium"` (line 138). -/
structure GimpConfig where
  outputPath : String
  colorMode : Int
  filterSpeckle : Int
  colorPrecision : Int
  cornerThreshold : ℚ
  segmentLength : ℚ
  spliceThreshold : ℚ
  pathPrecisionChoice : String
deriving DecidableEq, Repr

/-- Host/library environment of one plugin run. -/
structure GimpEnv where
  /-- did `import vtracer` succeed -/
  vtracerAvailable : Bool
  /-- the `n_drawables` argument of the procedure -/
  nDrawables : Int
  /-- is the run mode `Gimp.RunMode.INTERACTIVE` -/
  interactive : Bool
  /-- did the procedure dialog's `run()` accept -/
  dialogAccepted : Bool
  /-- name of the `NamedTemporaryFile` created for the PNG export -/
  tmpInputName : String
  /-- name returned by `tempfile.mktemp(suffix='.svg')` -/
  mktempName : String
  /-- the `file-png-export` PDB call: `.error e` means it raises -/
  exportResult : String → Except String Unit
  /-- `vtracer.convert_image_to_svg_py` -/
  convert : String → VtracerArgs → Except String String
  /-- `open(output_path, 'w')` + `f.write(svg_str)` -/
  writeResult : String → Except String Unit
  /-- `Gio.AppInfo.launch_default_for_uri` -/
  launchResult : String → Except String Unit
  /-- does `os.unlink` on this path succeed -/
  unlinkOk : String → Bool

/-- The stringified exception a failing `os.unlink` raises. -/
def unlinkErr : String := "PermissionError: unlink failed"

/-- The error message returned when vtracer failed to import (line 153). -/
def gimpMissingMsg : String := "VTracer not installed. Run: pip install vtracer"

/-- The error message for a wrong drawable count (line 160). -/
def wrongSelectionMsg : String := "Please select exactly one layer"

/-- The `try:` block of `vectorize` (lines 202–246): export the drawable to
the temp PNG, invoke the library, write the returned SVG to the output
path, show the success message, and best-effort open the viewer (the inner
`try/except: pass` swallows a launch failure). -/
def gimpTryBody (env : GimpEnv) (args : VtracerArgs) (tmp outPath : String) :
    List Ev × Except String Unit :=
  match env.exportResult tmp with
  | .error e => ([Ev.exportPng tmp], .error e)
  | .ok _ =>
    match env.convert tmp args with
    | .error e => ([Ev.exportPng tmp, Ev.libCall tmp args], .error e)
    | .ok svg =>
      match env.writeResult outPath with
      | .error e => ([Ev.exportPng tmp, Ev.libCall tmp args], .error e)
      | .ok _ =>
        let evs := [Ev.exportPng tmp, Ev.libCall tmp args,
          Ev.fileWrite outPath svg, Ev.gimpMessage ("SVG saved to: " ++ outPath)]
        match env.launchResult outPath with
        | .error _ => (evs, .ok ())
        | .ok _ => (evs ++ [Ev.launch outPath], .ok ())

/-- `VTracerVectorize.vectorize` (lines 146–258): dependency check,
drawable-count check, dialog (interactive mode), parameter marshaling
(`color_mode` 1 ↦ `"binary"`, the `precision_map` lookup with default 2),
temp-file creation, the `try` body, the `except` turning any exception into
an `EXECUTION_ERROR` return, and the `finally` deleting the temp input
(a failing unlink propagates, replacing the pending return). -/
def vectorize (env : GimpEnv) (cfg : GimpConfig) :
    List Ev × Except String (PDBStatus × String) :=
  if env.vtracerAvailable = false then
    ([], .ok (PDBStatus.executionError, gimpMissingMsg))
  else if env.nDrawables ≠ 1 then
    ([], .ok (PDBStatus.callingError, wrongSelectionMsg))
  else if env.interactive = true ∧ env.dialogAccepted = false then
    ([], .ok (PDBStatus.cancel, ""))
  else
    let pathPrecision : Int :=
      if cfg.pathPrecisionChoice = "low" then 1
      else if cfg.pathPrecisionChoice = "medium" then 2
      else if cfg.pathPrecisionChoice = "high" then 3
      else 2
    let mode := if cfg.colorMode = 1 then "binary" else "color"
    let args : VtracerArgs :=
      ⟨mode, cfg.filterSpeckle, cfg.colorPrecision, cfg.cornerThreshold,
       cfg.segmentLength, cfg.spliceThreshold, pathPrecision⟩
    let tmp := env.tmpInputName
    let outPath := if cfg.outputPath = "" then env.mktempName else cfg.outputPath
    let br := gimpTryBody env args tmp outPath
    let pend : PDBStatus × String :=
      match br.2 with
      | .ok _ => (PDBStatus.success, "")
      | .error e => (PDBStatus.executionError, e)
    if env.unlinkOk tmp then
      (Ev.tmpCreate tmp :: br.1 ++ [Ev.tmpDelete tmp], .ok pend)
    else
      (Ev.tmpCreate tmp :: br.1, .error unlinkErr)

end Gimp

/-! ## Concrete environments used to instantiate the theorems -/

/-- A concrete table standing in for Python `float` parsing on the small
set of numerals the instantiations use. -/
def cParseFloat : String → Option ℚ := fun s =>
  if s = "0" then some 0
  else if s = "1" then some 1
  else if s = "2" then some 2
  else if s = "3" then some 3
  else if s = "4" then some 4
  else if s = "45" then some 45
  else if s = "60" then some 60
  else none

/-- A concrete base64 decoder: decodes `"QUJD"` (i.e. `ABC`), raises on
anything else — in particular on `"A"`, whose length Python rejects. -/
def cDecode : String → Option Bytes := fun s =>
  if s = "QUJD" then some [65, 66, 67] else none

/-- A concrete filesystem with two image files. -/
def cFiles : String → Option Bytes := fun p =>
  if p = "/doc/img.png" then some [1, 2, 3]
  else if p = "/files/a.png" then some [9, 8]
  else none

/-- A concrete Inkscape environment: everything succeeds; the library
returns the marker text `"S1"`, parsed as a document without a viewBox;
`"S2"` parses as viewBox `0 0 2 2` and `"S3"` as viewBox `1 0 1 1`. -/
def cInkEnv : Inkscape.InkEnv where
  vtracerAvailable := true
  svgDir := "/doc"
  fileContents := cFiles
  b64decode := cDecode
  parseFloat := cParseFloat
  tmpName := fun _ suffix => "/tmp/img" ++ suffix
  convert := fun _ _ => .ok "S1"
  parseSvg := fun s =>
    if s = "S1" then .ok ⟨none, []⟩
    else if s = "S2" then .ok ⟨some "0 0 2 2", ["p"]⟩
    else if s = "S3" then .ok ⟨some "1 0 1 1", []⟩
    else .error "XMLSyntaxError"
  unlinkOk := fun _ => true
  parentOf := fun i => [Inkscape.Node.image i]

/-- The concrete environment whose library output carries viewBox
`0 0 2 2`. -/
def cInkEnvS2 : Inkscape.InkEnv := { cInkEnv with convert := fun _ _ => .ok "S2" }

/-- The concrete environment whose library output carries viewBox
`1 0 1 1` (nonzero min-x). -/
def cInkEnvS3 : Inkscape.InkEnv := { cInkEnv with convert := fun _ _ => .ok "S3" }

/-- A concrete image element embedded as a data URI, placed at the origin
with unit size. -/
def cImgA : Inkscape.ImageElem :=
  ⟨"im", some "data:image/png;base64,QUJD", none, none, none, some "1", some "1", none⟩

/-- A concrete image element at `x = 3` with size 4, for the scaling case. -/
def cImgB : Inkscape.ImageElem :=
  ⟨"ib", some "data:image/png;base64,QUJD", none, some "3", none, some "4", some "4", none⟩

/-- A data URI whose base64 payload (`"A"`) fails to decode. -/
def cImgBad : Inkscape.ImageElem :=
  ⟨"ic", some "data:image/png;base64,A", none, none, none, some "1", some "1", none⟩

/-- The custom settings record used in instantiations. -/
def cArgs : VtracerArgs := ⟨"color", 4, 8, 60, 4, 45, 2⟩

/-- Options selecting the `custom` preset with the declared defaults. -/
def cOpts : Inkscape.InkOptions := ⟨"color", 4, 8, 60, 4, 45, 2, "custom"⟩

/-- A concrete GIMP environment where every host step succeeds. -/
def cGimpEnv : Gimp.GimpEnv where
  vtracerAvailable := true
  nDrawables := 1
  interactive := false
  dialogAccepted := true
  tmpInputName := "/tmp/in.png"
  mktempName := "/tmp/out.svg"
  exportResult := fun _ => .ok ()
  convert := fun _ _ => .ok "SVGTEXT"
  writeResult := fun _ => .ok ()
  launchResult := fun _ => .ok ()
  unlinkOk := fun _ => true

/-- A concrete GIMP config: default values, `medium` path precision. -/
def cGimpCfg : Gimp.GimpConfig := ⟨"", 0, 4, 8, 60, 4, 45, "medium"⟩

/-! ## Specification-side geometry

These definitions formalize the spec's notion of the "nominal bounding box":
the rectangle denoted by the returned SVG's `viewBox`, mapped through the
transform attribute written on the inserted group.  They follow the spec's
words (SVG transform semantics), to be compared with the transform the code
computes. -/

namespace Inkscape

/-- An axis-aligned rectangle (position and extent). -/
structure Rect where
  x : ℚ
  y : ℚ
  w : ℚ
  h : ℚ
deriving DecidableEq, Repr

/-- How one transform component maps an axis-aligned rectangle. -/
def Tf.mapRect : Tf → Rect → Rect
  | .translate tx ty, r => ⟨r.x + tx, r.y + ty, r.w, r.h⟩
  | .scale sx sy, r => ⟨sx * r.x, sy * r.y, sx * r.w, sy * r.h⟩

/-- SVG transform-list semantics: the leftmost component is outermost, so
the rectangle is mapped by the rightmost component first. -/
def mapRectList (ts : List Tf) (r : Rect) : Rect := ts.foldr Tf.mapRect r

/-- The rectangle denoted by a `viewBox` attribute string: its four
whitespace-separated numbers `min-x min-y width height`. -/
def viewBoxRect (env : InkEnv) (vb : String) : Option Rect :=
  let parts := pySplitWs vb
  if parts.length = 4 then
    match env.parseFloat (parts.getD 0 ""), env.parseFloat (parts.getD 1 ""),
        env.parseFloat (parts.getD 2 ""), env.parseFloat (parts.getD 3 "") with
    | some a, some b, some c, some d => some ⟨a, b, c, d⟩
    | _, _, _, _ => none
  else none

end Inkscape

/-! ## Theorems

The claim theorems `C1_…` to `C10_…` below, with their counterexamples and
witnesses, settle the spec claims.  Shared helper lemmas precede them. -/

/-- The GIMP `try` body invokes the library at most once. -/
theorem gimpTryBody_libCall_count (env : Gimp.GimpEnv) (args : VtracerArgs)
    (tmp outPath : String) :
    countEv isLibCall (Gimp.gimpTryBody env args tmp outPath).1 ≤ 1 := by
  unfold Gimp.gimpTryBody
  rcases env.exportResult tmp with e | u
  · simp [countEv, isLibCall]
  rcases env.convert tmp args with e | svg
  · simp [countEv, isLibCall]
  rcases env.writeResult outPath with e | u2
  · simp [countEv, isLibCall]
  rcases env.launchResult outPath with e | u3 <;>
    simp [countEv, isLibCall, List.filter_append]

/-- The GIMP shim invokes the library at most once per run (no retry). -/
theorem gimp_vectorize_libCall_count (env : Gimp.GimpEnv) (cfg : Gimp.GimpConfig) :
    countEv isLibCall (Gimp.vectorize env cfg).1 ≤ 1 := by
  by_cases h1 : env.vtracerAvailable = false
  · simp [Gimp.vectorize, h1, countEv]
  by_cases h2 : env.nDrawables = 1
  case neg => simp [Gimp.vectorize, h1, h2, countEv]
  by_cases h3 : env.interactive = true ∧ env.dialogAccepted = false
  · simp [Gimp.vectorize, h1, h2, h3, countEv]
  by_cases h4 : env.unlinkOk env.tmpInputName = true <;>
    simp [Gimp.vectorize, h1, h2, h3, h4, apply_ite Prod.fst, countEv, isLibCall,
      List.filter_append] <;>
    simpa [countEv, isLibCall] using gimpTryBody_libCall_count env _ env.tmpInputName
      (if cfg.outputPath = "" then env.mktempName else cfg.outputPath)

/-- The Inkscape `try` body invokes the library at most once. -/
theorem inkTryBody_libCall_count (env : Inkscape.InkEnv) (img : Inkscape.ImageElem)
    (settings : Option VtracerArgs) (tmp : String) (x y : ℚ)
    (parent : List Inkscape.Node) :
    countEv isLibCall (Inkscape.inkTryBody env img settings tmp x y parent).1 ≤ 1 := by
  unfold Inkscape.inkTryBody
  cases settings with
  | none => simp [countEv]
  | some args =>
    rcases hc : env.convert tmp args with e | svg <;> simp only [hc]
    · simp [countEv, isLibCall]
    rcases hp : env.parseSvg svg with e | doc <;> simp only [hp]
    · simp [countEv, isLibCall]
    rcases hg : Inkscape.buildGroup env img x y doc with e | g <;> simp only [hg]
    · simp [countEv, isLibCall]
    rcases hi : Inkscape.insertBefore parent img g with _ | p' <;> simp only [hi] <;>
      simp [countEv, isLibCall, isErrMsg]

/-- `vectorize_image` invokes the library at most once per image
(no retry). -/
theorem vectorize_image_libCall_count (env : Inkscape.InkEnv) (k : Nat)
    (img : Inkscape.ImageElem) (settings : Option VtracerArgs)
    (parent : List Inkscape.Node) :
    countEv isLibCall (Inkscape.vectorize_image env k img settings parent).1 ≤ 1 := by
  rcases hext : Inkscape.extract_image_data env img with e | o
  · simp [Inkscape.vectorize_image, hext, countEv]
  rcases o with _ | ⟨bs, fmt⟩
  · simp [Inkscape.vectorize_image, hext, countEv, isLibCall]
  rcases hx : Inkscape.attrFloat env img.x with _ | x
  · simp [Inkscape.vectorize_image, hext, hx, countEv]
  rcases hy : Inkscape.attrFloat env img.y with _ | y
  · simp [Inkscape.vectorize_image, hext, hx, hy, countEv]
  rcases hb : (Inkscape.inkTryBody env img settings
      (env.tmpName k (Inkscape.tmpSuffix fmt)) x y parent).2 with e | p' <;>
    by_cases h4 : env.unlinkOk (env.tmpName k (Inkscape.tmpSuffix fmt)) = true <;>
    simp [Inkscape.vectorize_image, hext, hx, hy, hb, h4, apply_ite Prod.fst,
      countEv, isLibCall, isErrMsg, List.filter_append] <;>
    simpa [countEv, isLibCall] using inkTryBody_libCall_count env img settings
      (env.tmpName k (Inkscape.tmpSuffix fmt)) x y parent

/-- A non-temp event leaves the live set unchanged. -/
theorem liveStep_not_tmp (acc : List String) (e : Ev) (h : isTmpEv e = false) :
    liveStep acc e = acc := by
  cases e <;> simp_all [isTmpEv, liveStep]

/-- Folding over a temp-free trace leaves the live set unchanged. -/
theorem foldl_liveStep_no_tmp (l : List Ev) (acc : List String)
    (h : ∀ e ∈ l, isTmpEv e = false) : l.foldl liveStep acc = acc := by
  induction l generalizing acc with
  | nil => rfl
  | cons e es ih =>
    rw [List.foldl_cons, liveStep_not_tmp acc e (h e (by simp)),
      ih acc fun e' he' => h e' (by simp [he'])]

/-- `atMostOneLive` starts by bounding the initial live set. -/
theorem atMostOneLive_le (acc : List String) (l : List Ev)
    (h : atMostOneLive acc l = true) : acc.length ≤ 1 := by
  cases l <;> simp_all [atMostOneLive]

/-- `atMostOneLive` splits along a trace concatenation. -/
theorem atMostOneLive_append (xs ys : List Ev) (acc : List String) :
    atMostOneLive acc (xs ++ ys) = true ↔
      (atMostOneLive acc xs = true
        ∧ atMostOneLive (xs.foldl liveStep acc) ys = true) := by
  induction xs generalizing acc with
  | nil =>
    simp only [List.nil_append, List.foldl_nil]
    exact ⟨fun h => ⟨by simpa [atMostOneLive] using atMostOneLive_le acc ys h, h⟩,
      fun h => h.2⟩
  | cons e es ih =>
    simp only [List.cons_append, atMostOneLive, List.foldl_cons, Bool.and_eq_true,
      List.append_eq, ih (liveStep acc e)]
    tauto

/-- A temp-free trace keeps any bounded live set bounded. -/
theorem atMostOneLive_no_tmp (l : List Ev) (acc : List String)
    (h : ∀ e ∈ l, isTmpEv e = false) (hacc : acc.length ≤ 1) :
    atMostOneLive acc l = true := by
  induction l generalizing acc with
  | nil => simpa [atMostOneLive]
  | cons e es ih =>
    simp only [atMostOneLive, Bool.and_eq_true, decide_eq_true_eq]
    exact ⟨hacc, by
      rw [liveStep_not_tmp acc e (h e (by simp))]
      exact ih acc (fun e' he' => h e' (by simp [he'])) hacc⟩

/-- The empty trace is clean. -/
theorem cleanTrace_nil : cleanTrace [] := by
  refine ⟨rfl, rfl, ?_⟩
  intro q hq
  simp at hq

/-- A temp-free trace is clean. -/
theorem cleanTrace_no_tmp (tr : List Ev) (h : ∀ e ∈ tr, isTmpEv e = false) :
    cleanTrace tr := by
  refine ⟨foldl_liveStep_no_tmp tr [] h, atMostOneLive_no_tmp tr [] h (by simp), ?_⟩
  intro q hq
  have := h _ hq
  simp [isTmpEv] at this

/-- Clean traces concatenate to a clean trace. -/
theorem cleanTrace_append (xs ys : List Ev) (hx : cleanTrace xs)
    (hy : cleanTrace ys) : cleanTrace (xs ++ ys) := by
  obtain ⟨hx1, hx2, hx3⟩ := hx
  obtain ⟨hy1, hy2, hy3⟩ := hy
  refine ⟨?_, ?_, ?_⟩
  · rw [liveTmps, List.foldl_append]
    have : xs.foldl liveStep [] = [] := hx1
    rw [this]
    exact hy1
  · rw [atMostOneLive_append]
    refine ⟨hx2, ?_⟩
    have : xs.foldl liveStep [] = [] := hx1
    rw [this]
    exact hy2
  · intro q hq
    rcases List.mem_append.mp hq with hq | hq
    · exact List.mem_append.mpr (Or.inl (hx3 q hq))
    · exact List.mem_append.mpr (Or.inr (hy3 q hq))

/-- A create/delete bracket around a temp-free body is clean. -/
theorem cleanTrace_bracket (t : String) (body : List Ev)
    (h : ∀ e ∈ body, isTmpEv e = false) :
    cleanTrace (Ev.tmpCreate t :: body ++ [Ev.tmpDelete t]) := by
  refine ⟨?_, ?_, ?_⟩
  · have h1 : List.foldl liveStep [] (Ev.tmpCreate t :: body) = [t] := by
      rw [List.foldl_cons, show liveStep [] (Ev.tmpCreate t) = [t] from rfl,
        foldl_liveStep_no_tmp body _ h]
    rw [liveTmps, List.foldl_append, h1]
    simp [liveStep]
  · rw [atMostOneLive_append]
    constructor
    · simp only [atMostOneLive, Bool.and_eq_true, decide_eq_true_eq]
      refine ⟨by simp, ?_⟩
      rw [show liveStep [] (Ev.tmpCreate t) = [t] from rfl]
      exact atMostOneLive_no_tmp body [t] h (by simp)
    · rw [List.foldl_cons, show liveStep [] (Ev.tmpCreate t) = [t] from rfl,
        foldl_liveStep_no_tmp body _ h]
      simp [atMostOneLive, liveStep]
  · intro q hq
    simp only [List.mem_append, List.mem_cons, List.mem_singleton] at hq
    rcases hq with (hq | hq) | hq
    · injection hq with hq
      subst hq
      simp
    · have := h _ hq
      simp [isTmpEv] at this
    · exact absurd hq (by simp)

/-- Every event of the GIMP `try` body is temp-free. -/
theorem gimpTryBody_no_tmp (env : Gimp.GimpEnv) (args : VtracerArgs)
    (tmp outPath : String) :
    ∀ e ∈ (Gimp.gimpTryBody env args tmp outPath).1, isTmpEv e = false := by
  intro ev hev
  unfold Gimp.gimpTryBody at hev
  rcases he : env.exportResult tmp with e | u <;> simp only [he] at hev
  · simp at hev
    subst hev
    rfl
  rcases hc : env.convert tmp args with e | svg <;> simp only [hc] at hev
  · simp at hev
    rcases hev with hev | hev <;> subst hev <;> rfl
  rcases hw : env.writeResult outPath with e | u2 <;> simp only [hw] at hev
  · simp at hev
    rcases hev with hev | hev <;> subst hev <;> rfl
  rcases hl : env.launchResult outPath with e | u3 <;> simp only [hl] at hev <;>
      simp at hev
  · rcases hev with hev | hev | hev | hev <;> subst hev <;> rfl
  · rcases hev with hev | hev | hev | hev | hev <;> subst hev <;> rfl

/-- Every event of the Inkscape `try` body is temp-free. -/
theorem inkTryBody_no_tmp (env : Inkscape.InkEnv) (img : Inkscape.ImageElem)
    (settings : Option VtracerArgs) (tmp : String) (x y : ℚ)
    (parent : List Inkscape.Node) :
    ∀ e ∈ (Inkscape.inkTryBody env img settings tmp x y parent).1,
      isTmpEv e = false := by
  intro ev hev
  cases settings with
  | none => simp [Inkscape.inkTryBody] at hev
  | some args =>
    rcases hc : env.convert tmp args with e | svg <;>
      simp only [Inkscape.inkTryBody, hc] at hev
    · simp at hev
      subst hev
      rfl
    rcases hp : env.parseSvg svg with e | doc <;> simp only [hp] at hev
    · simp at hev
      subst hev
      rfl
    rcases hg : Inkscape.buildGroup env img x y doc with e | g <;>
      simp only [hg] at hev
    · simp at hev
      subst hev
      rfl
    rcases hi : Inkscape.insertBefore parent img g with _ | p' <;>
      simp only [hi] at hev <;> simp at hev
    · subst hev
      rfl
    · rcases hev with hev | hev | hev <;> subst hev <;> rfl

/-- Each single-image run of the Inkscape shim is temp-file clean, provided
`os.unlink` succeeds. -/
theorem vectorize_image_cleanTrace (env : Inkscape.InkEnv) (k : Nat)
    (img : Inkscape.ImageElem) (settings : Option VtracerArgs)
    (parent : List Inkscape.Node) (hul : ∀ q, env.unlinkOk q = true) :
    cleanTrace (Inkscape.vectorize_image env k img settings parent).1 := by
  rcases hext : Inkscape.extract_image_data env img with e | o
  · simpa [Inkscape.vectorize_image, hext] using cleanTrace_nil
  rcases o with _ | ⟨bs, fmt⟩
  · refine cleanTrace_no_tmp _ ?_
    intro ev hev
    simp [Inkscape.vectorize_image, hext] at hev
    subst hev
    rfl
  rcases hx : Inkscape.attrFloat env img.x with _ | x
  · simpa [Inkscape.vectorize_image, hext, hx] using cleanTrace_nil
  rcases hy : Inkscape.attrFloat env img.y with _ | y
  · simpa [Inkscape.vectorize_image, hext, hx, hy] using cleanTrace_nil
  rcases hb : (Inkscape.inkTryBody env img settings
      (env.tmpName k (Inkscape.tmpSuffix fmt)) x y parent).2 with e | p' <;>
    simp only [Inkscape.vectorize_image, hext, hx, hy, hb,
      hul (env.tmpName k (Inkscape.tmpSuffix fmt)), if_true, ite_true]
  · refine cleanTrace_bracket _ _ ?_
    intro ev hev
    rcases List.mem_append.mp hev with hev | hev
    · exact inkTryBody_no_tmp env img settings _ x y parent ev hev
    · simp at hev
      subst hev
      rfl
  · exact cleanTrace_bracket _ _ (inkTryBody_no_tmp env img settings _ x y parent)

/-- The whole per-image loop is temp-file clean, provided `os.unlink`
succeeds. -/
theorem effectLoop_cleanTrace (env : Inkscape.InkEnv)
    (settings : Option VtracerArgs) (imgs : List Inkscape.ImageElem) (k : Nat)
    (hul : ∀ q, env.unlinkOk q = true) :
    cleanTrace (Inkscape.effectLoop env settings imgs k).1 := by
  induction imgs generalizing k with
  | nil => simpa [Inkscape.effectLoop] using cleanTrace_nil
  | cons img rest ih =>
    rcases hv : (Inkscape.vectorize_image env k img settings (env.parentOf img)).2
        with e | u <;>
      simp only [Inkscape.effectLoop, hv]
    · exact vectorize_image_cleanTrace env k img settings _ hul
    · exact cleanTrace_append _ _
        (vectorize_image_cleanTrace env k img settings _ hul) (ih (k + 1))

/-- **C3** — Whenever an invocation reaches the point of creating a
temporary input file, that file is deleted by the end of the run whether
the intervening steps succeed or raise, at most one temporary input file is
live at any point, and no temporary file survives — in both shims, provided
`os.unlink` itself succeeds (its failure is claim C4's concern). -/
theorem C3_temp_file_lifecycle :
    (∀ (env : Gimp.GimpEnv) (cfg : Gimp.GimpConfig),
        (∀ q, env.unlinkOk q = true) → cleanTrace (Gimp.vectorize env cfg).1)
    ∧ (∀ (env : Inkscape.InkEnv) (o : Inkscape.InkOptions)
        (sel : List Inkscape.Node),
        (∀ q, env.unlinkOk q = true) → cleanTrace (Inkscape.effect env o sel).1) := by
  constructor
  · intro env cfg hul
    by_cases h1 : env.vtracerAvailable = false
    · simpa [Gimp.vectorize, h1] using cleanTrace_nil
    by_cases h2 : env.nDrawables = 1
    case neg => simpa [Gimp.vectorize, h1, h2] using cleanTrace_nil
    by_cases h3 : env.interactive = true ∧ env.dialogAccepted = false
    · simpa [Gimp.vectorize, h1, h2, h3] using cleanTrace_nil
    simp only [Gimp.vectorize, h1, h2, h3, hul env.tmpInputName,
      if_true, ite_true, if_false, ite_false, ne_eq, not_true_eq_false,
      not_false_eq_true, Bool.false_eq_true]
    exact cleanTrace_bracket _ _ (gimpTryBody_no_tmp env _ env.tmpInputName _)
  · intro env o sel hul
    by_cases h1 : env.vtracerAvailable = false
    · refine cleanTrace_no_tmp _ ?_
      intro ev hev
      simp [Inkscape.effect, h1] at hev
      subst hev
      rfl
    by_cases h2 : (Inkscape.imageNodes sel).isEmpty = true
    · refine cleanTrace_no_tmp _ ?_
      intro ev hev
      simp [Inkscape.effect, h1, h2] at hev
      subst hev
      rfl
    simp only [Inkscape.effect, h1, h2, if_false, ite_false, Bool.false_eq_true]
    exact effectLoop_cleanTrace env _ _ 0 hul

/-- Witness for C3: the concrete successful runs of both shims. -/
theorem C3_temp_file_lifecycle_witness :
    cleanTrace (Gimp.vectorize cGimpEnv cGimpCfg).1
    ∧ cleanTrace (Inkscape.effect cInkEnv cOpts [Inkscape.Node.image cImgA]).1 :=
  ⟨C3_temp_file_lifecycle.1 cGimpEnv cGimpCfg fun _ => rfl,
   C3_temp_file_lifecycle.2 cInkEnv cOpts [Inkscape.Node.image cImgA] fun _ => rfl⟩

/-- Any library call recorded by the GIMP `try` body carries exactly the
argument record and input path the body was given. -/
theorem gimpTryBody_libCall_args (env : Gimp.GimpEnv) (args : VtracerArgs)
    (tmp outPath p : String) (a : VtracerArgs)
    (h : Ev.libCall p a ∈ (Gimp.gimpTryBody env args tmp outPath).1) :
    a = args ∧ p = tmp := by
  unfold Gimp.gimpTryBody at h
  cases hexp : env.exportResult tmp <;> rw [hexp] at h
  · simp at h
  · cases hconv : env.convert tmp args <;> rw [hconv] at h
    · simp at h
      exact ⟨h.2, h.1⟩
    · cases hw : env.writeResult outPath <;> rw [hw] at h
      · simp at h
        exact ⟨h.2, h.1⟩
      · cases hl : env.launchResult outPath <;> rw [hl] at h <;> simp at h <;>
          exact ⟨h.2, h.1⟩

/-- Any library call recorded by the GIMP shim carries exactly the marshaled
user parameters: the `color-mode` mapping, the five numeric values, and the
`precision_map` lookup with its default of 2. -/
theorem gimp_vectorize_libCall_args (env : Gimp.GimpEnv) (cfg : Gimp.GimpConfig)
    (p : String) (a : VtracerArgs)
    (h : Ev.libCall p a ∈ (Gimp.vectorize env cfg).1) :
    a = ⟨if cfg.colorMode = 1 then "binary" else "color",
         cfg.filterSpeckle, cfg.colorPrecision, cfg.cornerThreshold,
         cfg.segmentLength, cfg.spliceThreshold,
         if cfg.pathPrecisionChoice = "low" then 1
         else if cfg.pathPrecisionChoice = "medium" then 2
         else if cfg.pathPrecisionChoice = "high" then 3
         else 2⟩ := by
  by_cases h1 : env.vtracerAvailable = false
  · simp [Gimp.vectorize, h1] at h
  by_cases h2 : env.nDrawables = 1
  case neg => simp [Gimp.vectorize, h1, h2] at h
  by_cases h3 : env.interactive = true ∧ env.dialogAccepted = false
  · simp [Gimp.vectorize, h1, h2, h3] at h
  by_cases h4 : env.unlinkOk env.tmpInputName = true <;>
    simp [Gimp.vectorize, h1, h2, h3, h4, apply_ite Prod.fst] at h <;>
    exact (gimpTryBody_libCall_args _ _ _ _ _ _ h).1

/-- Any library call recorded by the Inkscape `try` body carries exactly the
settings the body was given (so the settings were not `None`). -/
theorem inkTryBody_libCall_settings (env : Inkscape.InkEnv) (img : Inkscape.ImageElem)
    (settings : Option VtracerArgs) (tmp : String) (x y : ℚ)
    (parent : List Inkscape.Node) (p : String) (a : VtracerArgs)
    (h : Ev.libCall p a ∈ (Inkscape.inkTryBody env img settings tmp x y parent).1) :
    settings = some a ∧ p = tmp := by
  cases settings with
  | none => simp [Inkscape.inkTryBody] at h
  | some args =>
    rcases hconv : env.convert tmp args with e | svg <;>
      simp only [Inkscape.inkTryBody, hconv] at h
    · simp at h
      exact ⟨by rw [h.2], h.1⟩
    · rcases hsvg : env.parseSvg svg with e | doc <;> simp only [hsvg] at h
      · simp at h
        exact ⟨by rw [h.2], h.1⟩
      · rcases hg : Inkscape.buildGroup env img x y doc with e | g <;>
          simp only [hg] at h
        · simp at h
          exact ⟨by rw [h.2], h.1⟩
        · rcases hins : Inkscape.insertBefore parent img g with _ | p' <;>
            simp only [hins] at h <;> simp at h <;> exact ⟨by rw [h.2], h.1⟩

/-- Any library call recorded by `vectorize_image` carries exactly the
settings it was given. -/
theorem vectorize_image_libCall_settings (env : Inkscape.InkEnv) (k : Nat)
    (img : Inkscape.ImageElem) (settings : Option VtracerArgs)
    (parent : List Inkscape.Node) (p : String) (a : VtracerArgs)
    (h : Ev.libCall p a ∈ (Inkscape.vectorize_image env k img settings parent).1) :
    settings = some a := by
  rcases hext : Inkscape.extract_image_data env img with e | o
  · simp [Inkscape.vectorize_image, hext] at h
  rcases o with _ | ⟨bs, fmt⟩
  · simp [Inkscape.vectorize_image, hext] at h
  rcases hx : Inkscape.attrFloat env img.x with _ | x
  · simp [Inkscape.vectorize_image, hext, hx] at h
  rcases hy : Inkscape.attrFloat env img.y with _ | y
  · simp [Inkscape.vectorize_image, hext, hx, hy] at h
  rcases hb : (Inkscape.inkTryBody env img settings
      (env.tmpName k (Inkscape.tmpSuffix fmt)) x y parent).2 with e | p' <;>
    by_cases h4 : env.unlinkOk (env.tmpName k (Inkscape.tmpSuffix fmt)) = true <;>
    simp [Inkscape.vectorize_image, hext, hx, hy, hb, h4, apply_ite Prod.fst] at h <;>
    exact (inkTryBody_libCall_settings _ _ _ _ _ _ _ _ _ h).1

/-- Any library call recorded by the per-image loop carries exactly the
settings the loop was given. -/
theorem effectLoop_libCall_settings (env : Inkscape.InkEnv)
    (settings : Option VtracerArgs) (imgs : List Inkscape.ImageElem) (k : Nat)
    (p : String) (a : VtracerArgs)
    (h : Ev.libCall p a ∈ (Inkscape.effectLoop env settings imgs k).1) :
    settings = some a := by
  induction imgs generalizing k with
  | nil => simp [Inkscape.effectLoop] at h
  | cons img rest ih =>
    rcases hv : (Inkscape.vectorize_image env k img settings (env.parentOf img)).2
        with e | u <;>
      simp only [Inkscape.effectLoop, hv] at h
    · exact vectorize_image_libCall_settings _ _ _ _ _ _ _ h
    · rcases List.mem_append.mp h with h' | h'
      · exact vectorize_image_libCall_settings _ _ _ _ _ _ _ h'
      · exact ih _ h'

/-- **C1** — Every invocation of the external library carries exactly the
user-specified parameter values.  GIMP: the seven values are marshaled
unchanged (`color-mode` 1 ↦ `binary`, else `color`; `path-precision` via
`precision_map` with low/medium/high ↦ 1/2/3 and 2 for anything
unrecognized).  Inkscape (with the `custom` preset): the seven option
values are passed unchanged, and an unset `--path_precision` resolves to
the declared default 2 before the call. -/
theorem C1_library_invoked_with_user_values :
    (∀ (env : Gimp.GimpEnv) (cfg : Gimp.GimpConfig) (p : String) (a : VtracerArgs),
        Ev.libCall p a ∈ (Gimp.vectorize env cfg).1 →
        a.colormode = (if cfg.colorMode = 1 then "binary" else "color")
        ∧ a.filter_speckle = cfg.filterSpeckle
        ∧ a.color_precision = cfg.colorPrecision
        ∧ a.corner_threshold = cfg.cornerThreshold
        ∧ a.length_threshold = cfg.segmentLength
        ∧ a.splice_threshold = cfg.spliceThreshold
        ∧ a.path_precision =
            (if cfg.pathPrecisionChoice = "low" then 1
             else if cfg.pathPrecisionChoice = "medium" then 2
             else if cfg.pathPrecisionChoice = "high" then 3
             else 2)
        ∧ (cfg.pathPrecisionChoice ≠ "low" → cfg.pathPrecisionChoice ≠ "medium" →
            cfg.pathPrecisionChoice ≠ "high" → a.path_precision = 2))
    ∧ (∀ (env : Inkscape.InkEnv) (r : Inkscape.InkRawOpts)
        (sel : List Inkscape.Node) (p : String) (a : VtracerArgs),
        (Inkscape.resolveOpts r).preset = "custom" →
        Ev.libCall p a ∈ (Inkscape.effect env (Inkscape.resolveOpts r) sel).1 →
        a.colormode = (Inkscape.resolveOpts r).colormode
        ∧ a.filter_speckle = (Inkscape.resolveOpts r).filter_speckle
        ∧ a.color_precision = (Inkscape.resolveOpts r).color_precision
        ∧ a.corner_threshold = (Inkscape.resolveOpts r).corner_threshold
        ∧ a.length_threshold = (Inkscape.resolveOpts r).length_threshold
        ∧ a.splice_threshold = (Inkscape.resolveOpts r).splice_threshold
        ∧ a.path_precision = (Inkscape.resolveOpts r).path_precision
        ∧ (r.path_precision = none → a.path_precision = 2)) := by
  constructor
  · intro env cfg p a h
    have := gimp_vectorize_libCall_args env cfg p a h
    subst this
    refine ⟨rfl, rfl, rfl, rfl, rfl, rfl, rfl, ?_⟩
    intro h1 h2 h3
    simp [h1, h2, h3]
  · intro env r sel p a hpreset h
    by_cases h1 : env.vtracerAvailable = false
    · simp [Inkscape.effect, h1] at h
    by_cases h2 : (Inkscape.imageNodes sel).isEmpty = true
    · simp [Inkscape.effect, h1, h2] at h
    · simp [Inkscape.effect, h1, h2, hpreset] at h
      have hs := effectLoop_libCall_settings _ _ _ _ _ _ h
      have ha : Inkscape.customArgs (Inkscape.resolveOpts r) = a := by
        injection hs
      subst ha
      refine ⟨rfl, rfl, rfl, rfl, rfl, rfl, rfl, ?_⟩
      intro hr
      simp [Inkscape.customArgs, Inkscape.resolveOpts, hr]

/-- Witness for C1: concrete successful runs of both shims; the GIMP config
additionally exercises the unrecognized-choice default. -/
theorem C1_library_invoked_with_user_values_witness :
    (Ev.libCall "/tmp/in.png" cArgs ∈
        (Gimp.vectorize cGimpEnv { cGimpCfg with pathPrecisionChoice := "odd" }).1
      ∧ cArgs.path_precision = 2)
    ∧ (Ev.libCall "/tmp/img.png" cArgs ∈
        (Inkscape.effect cInkEnv
          (Inkscape.resolveOpts ⟨none, none, none, none, none, none, none, none⟩)
          [Inkscape.Node.image cImgA]).1
      ∧ cArgs.path_precision = 2) := by
  refine ⟨⟨by decide, ?_⟩, ⟨by decide, ?_⟩⟩
  · exact (C1_library_invoked_with_user_values.1 cGimpEnv
      { cGimpCfg with pathPrecisionChoice := "odd" } "/tmp/in.png" cArgs
      (by decide)).2.2.2.2.2.2.2 (by decide) (by decide) (by decide)
  · exact (C1_library_invoked_with_user_values.2 cInkEnv
      ⟨none, none, none, none, none, none, none, none⟩ [Inkscape.Node.image cImgA]
      "/tmp/img.png" cArgs (by decide) (by decide)).2.2.2.2.2.2.2 rfl

/-- `list.index` finds the first occurrence. -/
theorem pyIndex_append {α : Type} [DecidableEq α] (t : α) (pre suf : List α)
    (h : t ∉ pre) : Inkscape.pyIndex t (pre ++ t :: suf) = some pre.length := by
  induction pre with
  | nil => simp [Inkscape.pyIndex]
  | cons a as ih =>
    have ha : ¬ a = t := fun hh => h (by simp [hh])
    have hnot : t ∉ as := fun hh => h (List.mem_cons_of_mem _ hh)
    simp [Inkscape.pyIndex, ha, ih hnot]

/-- Inserting at the length of the front part lands between the parts. -/
theorem pyInsert_append {α : Type} (a : α) (pre l : List α) :
    Inkscape.pyInsert a pre.length (pre ++ l) = pre ++ a :: l := by
  induction pre with
  | nil => cases l <;> simp [Inkscape.pyInsert]
  | cons x xs ih => simp [Inkscape.pyInsert, ih]

/-- Setting the element just after the front part replaces the second
element of the tail. -/
theorem pySet_after_front {α : Type} (b : α) (pre suf : List α) (x y : α) :
    Inkscape.pySet b (pre.length + 1) (pre ++ x :: y :: suf) =
      pre ++ x :: b :: suf := by
  induction pre with
  | nil => simp [Inkscape.pySet]
  | cons z zs ih => simp [Inkscape.pySet, ih]

/-- Lines 251–256 on a parent containing the image exactly once: the group
goes in immediately before the image, the image is restyled in place, and
everything else is untouched. -/
theorem insertBefore_decomp (pre suf : List Inkscape.Node)
    (img : Inkscape.ImageElem) (g : Inkscape.GroupElem)
    (h : Inkscape.Node.image img ∉ pre) :
    Inkscape.insertBefore (pre ++ Inkscape.Node.image img :: suf) img g =
      some (pre ++ Inkscape.Node.group g ::
        Inkscape.Node.image (Inkscape.hiddenImg img) :: suf) := by
  unfold Inkscape.insertBefore
  rw [pyIndex_append _ _ _ h]
  have h1 := pyInsert_append (Inkscape.Node.group g) pre
    (Inkscape.Node.image img :: suf)
  simp [h1, pySet_after_front]

/-- The group built for an image carries the id `vectorized_<image id>` and
the parsed document's children. -/
theorem buildGroup_id (env : Inkscape.InkEnv) (img : Inkscape.ImageElem)
    (x y : ℚ) (doc : Inkscape.SvgDoc) (g : Inkscape.GroupElem)
    (h : Inkscape.buildGroup env img x y doc = Except.ok g) :
    g.id = "vectorized_" ++ img.id ∧ g.children = doc.elems := by
  unfold Inkscape.buildGroup at h
  rcases hs : Inkscape.scaleTfs env doc.viewBox img.width img.height with e | ts <;>
    rw [hs] at h
  · simp at h
  · injection h with h
    subst h
    exact ⟨rfl, rfl⟩

/-- **C9** — After a successful vectorization the original image element is
still in its parent (restyled `display:none`, not removed), the vectorized
group sits immediately before it, and every other child of the parent is
unchanged. -/
theorem C9_group_before_hidden_image :
    ∀ (env : Inkscape.InkEnv) (k : Nat) (img : Inkscape.ImageElem)
      (args : VtracerArgs) (pre suf : List Inkscape.Node)
      (bs : Bytes) (fmt svg : String) (doc : Inkscape.SvgDoc)
      (g : Inkscape.GroupElem) (x y : ℚ),
      Inkscape.extract_image_data env img = Except.ok (some (bs, fmt)) →
      Inkscape.attrFloat env img.x = some x →
      Inkscape.attrFloat env img.y = some y →
      env.convert (env.tmpName k (Inkscape.tmpSuffix fmt)) args = Except.ok svg →
      env.parseSvg svg = Except.ok doc →
      Inkscape.buildGroup env img x y doc = Except.ok g →
      Inkscape.Node.image img ∉ pre →
      env.unlinkOk (env.tmpName k (Inkscape.tmpSuffix fmt)) = true →
      (Inkscape.vectorize_image env k img (some args)
          (pre ++ Inkscape.Node.image img :: suf)).2 =
        Except.ok (pre ++ Inkscape.Node.group g ::
          Inkscape.Node.image { img with style := some "display:none" } :: suf)
      ∧ g.id = "vectorized_" ++ img.id := by
  intro env k img args pre suf bs fmt svg doc g x y hext hx hy hconv hparse hg
    hpre hul
  refine ⟨?_, (buildGroup_id env img x y doc g hg).1⟩
  have hins := insertBefore_decomp pre suf img g hpre
  simp [Inkscape.vectorize_image, Inkscape.inkTryBody, hext, hx, hy, hconv,
    hparse, hg, hins, hul, Inkscape.hiddenImg]

/-- Witness for C9: the concrete successful run on a one-image parent. -/
theorem C9_group_before_hidden_image_witness :
    (Inkscape.vectorize_image cInkEnv 0 cImgA (some cArgs)
        ([] ++ Inkscape.Node.image cImgA :: [])).2 =
      Except.ok ([] ++ Inkscape.Node.group ⟨"vectorized_im", [], []⟩ ::
        Inkscape.Node.image { cImgA with style := some "display:none" } :: [])
    ∧ (⟨"vectorized_im", [], []⟩ : Inkscape.GroupElem).id = "vectorized_" ++ cImgA.id :=
  C9_group_before_hidden_image cInkEnv 0 cImgA cArgs [] [] [65, 66, 67] "png" "S1"
    ⟨none, []⟩ ⟨"vectorized_im", [], []⟩ 0 0 rfl rfl rfl rfl rfl rfl
    (by simp) rfl

/-- Unpacking a parsed `viewBox` rectangle: four fields, with the third and
fourth parsing to its width and height. -/
theorem viewBoxRect_parts (env : Inkscape.InkEnv) (vb : String)
    (r : Inkscape.Rect) (h : Inkscape.viewBoxRect env vb = some r) :
    (pySplitWs vb).length = 4
    ∧ env.parseFloat ((pySplitWs vb).getD 2 "") = some r.w
    ∧ env.parseFloat ((pySplitWs vb).getD 3 "") = some r.h := by
  obtain ⟨rx, ry, rw', rh'⟩ := r
  unfold Inkscape.viewBoxRect at h
  by_cases hl : (pySplitWs vb).length = 4
  · rw [if_pos hl] at h
    rcases h0 : env.parseFloat ((pySplitWs vb).getD 0 "") with _ | a <;> rw [h0] at h
    · simp at h
    rcases hb1 : env.parseFloat ((pySplitWs vb).getD 1 "") with _ | b <;> rw [hb1] at h
    · simp at h
    rcases h2 : env.parseFloat ((pySplitWs vb).getD 2 "") with _ | c <;> rw [h2] at h
    · simp at h
    rcases h3 : env.parseFloat ((pySplitWs vb).getD 3 "") with _ | d <;> rw [h3] at h
    · simp at h
    · simp only [Option.some.injEq, Inkscape.Rect.mk.injEq] at h
      obtain ⟨ha, hb, hc, hd⟩ := h
      exact ⟨hl, by rw [hc], by rw [hd]⟩
  · rw [if_neg hl] at h
    simp at h

/-- **C2 amended** — The bounding-box property holds under the provisos the
counterexample forces: when the library output's viewBox has min-x and
min-y zero, nonzero width and height, and the image element carries parseable
`width`/`height` attributes, the inserted group's transform maps the
viewBox rectangle exactly onto the image's `x, y, width, height`. -/
theorem C2_amended_nominal_bbox :
    ∀ (env : Inkscape.InkEnv) (k : Nat) (img : Inkscape.ImageElem)
      (args : VtracerArgs) (pre suf : List Inkscape.Node)
      (bs : Bytes) (fmt svg vb : String) (doc : Inkscape.SvgDoc)
      (vbW vbH : ℚ) (ws hstr : String) (w h x y : ℚ),
      Inkscape.extract_image_data env img = Except.ok (some (bs, fmt)) →
      Inkscape.attrFloat env img.x = some x →
      Inkscape.attrFloat env img.y = some y →
      env.convert (env.tmpName k (Inkscape.tmpSuffix fmt)) args = Except.ok svg →
      env.parseSvg svg = Except.ok doc →
      doc.viewBox = some vb →
      Inkscape.viewBoxRect env vb = some ⟨0, 0, vbW, vbH⟩ →
      vbW ≠ 0 → vbH ≠ 0 →
      img.width = some ws → ws ≠ "" →
      env.parseFloat (pyReplace ws "px" "") = some w →
      img.height = some hstr → hstr ≠ "" →
      env.parseFloat (pyReplace hstr "px" "") = some h →
      Inkscape.Node.image img ∉ pre →
      env.unlinkOk (env.tmpName k (Inkscape.tmpSuffix fmt)) = true →
      ∃ g : Inkscape.GroupElem,
        (Inkscape.vectorize_image env k img (some args)
            (pre ++ Inkscape.Node.image img :: suf)).2 =
          Except.ok (pre ++ Inkscape.Node.group g ::
            Inkscape.Node.image { img with style := some "display:none" } :: suf)
        ∧ g.id = "vectorized_" ++ img.id
        ∧ Inkscape.mapRectList g.transform ⟨0, 0, vbW, vbH⟩ =
            (⟨x, y, w, h⟩ : Inkscape.Rect) := by
  intro env k img args pre suf bs fmt svg vb doc vbW vbH ws hstr w h x y
    hext hx hy hconv hparse hvb hrect hvbW hvbH hwidth hwne hwp hheight hhne
    hhp hpre hul
  obtain ⟨hlen, h2, h3⟩ := viewBoxRect_parts env vb _ hrect
  have hvbne : vb ≠ "" := by
    intro hvb0
    rw [hvb0, show pySplitWs "" = [] from rfl] at hlen
    simp at hlen
  by_cases hone : w / vbW = 1 ∧ h / vbH = 1
  · have hscale : Inkscape.scaleTfs env (some vb) (some ws) (some hstr) =
        Except.ok [] := by
      simp only [Inkscape.scaleTfs, hlen, h2, h3, hwp, hhp, ne_eq, ite_true,
        if_true, if_pos (show ¬vb = "" ∧ ¬ws = "" ∧ ¬hstr = ""
          from ⟨hvbne, hwne, hhne⟩)]
      rw [if_pos hvbW, if_pos hvbH, if_neg (by push_neg; exact hone)]
    have hg : Inkscape.buildGroup env img x y doc = Except.ok
        ⟨"vectorized_" ++ img.id,
         (if x ≠ 0 ∨ y ≠ 0 then [Inkscape.Tf.translate x y] else []) ++ [],
         doc.elems⟩ := by
      simp [Inkscape.buildGroup, hvb, hwidth, hheight, hscale]
    refine ⟨⟨"vectorized_" ++ img.id,
      (if x ≠ 0 ∨ y ≠ 0 then [Inkscape.Tf.translate x y] else []) ++ [],
      doc.elems⟩, ?_, rfl, ?_⟩
    · have hins := insertBefore_decomp pre suf img
        ⟨"vectorized_" ++ img.id,
         (if x ≠ 0 ∨ y ≠ 0 then [Inkscape.Tf.translate x y] else []) ++ [],
         doc.elems⟩ hpre
      simp only [ne_eq, List.append_nil] at hins
      simp [Inkscape.vectorize_image, Inkscape.inkTryBody, hext, hx, hy, hconv,
        hparse, hg, hins, hul, Inkscape.hiddenImg]
    · have hw1 : w = vbW := (div_eq_one_iff_eq hvbW).mp hone.1
      have hh1 : h = vbH := (div_eq_one_iff_eq hvbH).mp hone.2
      by_cases hxy : x ≠ 0 ∨ y ≠ 0
      · simp [hxy, Inkscape.mapRectList, Inkscape.Tf.mapRect, hw1, hh1]
      · push_neg at hxy
        simp [hxy.1, hxy.2, Inkscape.mapRectList, hw1, hh1]
  · have hcond : w / vbW ≠ 1 ∨ h / vbH ≠ 1 := by
      by_contra hno
      push_neg at hno
      exact hone ⟨hno.1, hno.2⟩
    have hscale : Inkscape.scaleTfs env (some vb) (some ws) (some hstr) =
        Except.ok [Inkscape.Tf.scale (w / vbW) (h / vbH)] := by
      simp only [Inkscape.scaleTfs, hlen, h2, h3, hwp, hhp, ne_eq, ite_true,
        if_true, if_pos (show ¬vb = "" ∧ ¬ws = "" ∧ ¬hstr = ""
          from ⟨hvbne, hwne, hhne⟩)]
      rw [if_pos hvbW, if_pos hvbH, if_pos hcond]
    have hg : Inkscape.buildGroup env img x y doc = Except.ok
        ⟨"vectorized_" ++ img.id,
         (if x ≠ 0 ∨ y ≠ 0 then [Inkscape.Tf.translate x y] else []) ++
           [Inkscape.Tf.scale (w / vbW) (h / vbH)],
         doc.elems⟩ := by
      simp [Inkscape.buildGroup, hvb, hwidth, hheight, hscale]
    refine ⟨⟨"vectorized_" ++ img.id,
      (if x ≠ 0 ∨ y ≠ 0 then [Inkscape.Tf.translate x y] else []) ++
        [Inkscape.Tf.scale (w / vbW) (h / vbH)],
      doc.elems⟩, ?_, rfl, ?_⟩
    · have hins := insertBefore_decomp pre suf img
        ⟨"vectorized_" ++ img.id,
         (if x ≠ 0 ∨ y ≠ 0 then [Inkscape.Tf.translate x y] else []) ++
           [Inkscape.Tf.scale (w / vbW) (h / vbH)],
         doc.elems⟩ hpre
      simp only [ne_eq, List.append_nil] at hins
      simp [Inkscape.vectorize_image, Inkscape.inkTryBody, hext, hx, hy, hconv,
        hparse, hg, hins, hul, Inkscape.hiddenImg]
    · by_cases hxy : x ≠ 0 ∨ y ≠ 0
      · simp [hxy, Inkscape.mapRectList, Inkscape.Tf.mapRect, hvbW, hvbH]
      · push_neg at hxy
        simp [hxy.1, hxy.2, Inkscape.mapRectList, Inkscape.Tf.mapRect,
          hvbW, hvbH]

/-- **C2** counterexample — A successfully vectorized image whose library
output has viewBox `1 0 1 1` (nonzero min-x): the group is inserted with an
empty transform, so the viewBox rectangle maps to `(1, 0, 1, 1)`, which is
not the image's `(x, y, width, height) = (0, 0, 1, 1)`.  The claim's
bounding-box equality therefore fails as stated. -/
theorem C2_counterexample :
    (Inkscape.vectorize_image cInkEnvS3 0 cImgA (some cArgs)
        [Inkscape.Node.image cImgA]).2 =
      Except.ok [Inkscape.Node.group ⟨"vectorized_im", [], []⟩,
        Inkscape.Node.image { cImgA with style := some "display:none" }]
    ∧ Inkscape.viewBoxRect cInkEnvS3 "1 0 1 1" = some ⟨1, 0, 1, 1⟩
    ∧ Inkscape.attrFloat cInkEnvS3 cImgA.x = some 0
    ∧ Inkscape.attrFloat cInkEnvS3 cImgA.y = some 0
    ∧ cInkEnvS3.parseFloat (pyReplace "1" "px" "") = some 1
    ∧ Inkscape.mapRectList ([] : List Inkscape.Tf) ⟨1, 0, 1, 1⟩ ≠
        (⟨0, 0, 1, 1⟩ : Inkscape.Rect) := by
  have hscale : Inkscape.scaleTfs cInkEnvS3 (some "1 0 1 1") (some "1") (some "1") =
      Except.ok [] := by
    have hsp : pySplitWs "1 0 1 1" = ["1", "0", "1", "1"] := rfl
    have hpr : pyReplace "1" "px" "" = "1" := rfl
    simp [Inkscape.scaleTfs, hsp, hpr, cInkEnvS3, cInkEnv, cParseFloat]
  have hg : Inkscape.buildGroup cInkEnvS3 cImgA 0 0 ⟨some "1 0 1 1", []⟩ =
      Except.ok ⟨"vectorized_im", [], []⟩ := by
    simp [Inkscape.buildGroup, hscale, cImgA]
  refine ⟨?_, rfl, rfl, rfl, rfl, by decide⟩
  have hins : Inkscape.insertBefore [Inkscape.Node.image cImgA] cImgA
      ⟨"vectorized_im", [], []⟩ =
      some [Inkscape.Node.group ⟨"vectorized_im", [], []⟩,
        Inkscape.Node.image (Inkscape.hiddenImg cImgA)] := rfl
  simp [Inkscape.vectorize_image, Inkscape.inkTryBody, hg, hins,
    Inkscape.hiddenImg, show Inkscape.extract_image_data cInkEnvS3 cImgA =
      Except.ok (some ([65, 66, 67], "png")) from rfl,
    show Inkscape.attrFloat cInkEnvS3 cImgA.x = some 0 from rfl,
    show Inkscape.attrFloat cInkEnvS3 cImgA.y = some 0 from rfl,
    show cInkEnvS3.convert "/tmp/img.png" cArgs = Except.ok "S3" from rfl,
    show cInkEnvS3.parseSvg "S3" = Except.ok ⟨some "1 0 1 1", []⟩ from rfl,
    show cInkEnvS3.tmpName 0 (Inkscape.tmpSuffix "png") = "/tmp/img.png" from rfl,
    show cInkEnvS3.unlinkOk "/tmp/img.png" = true from rfl]

/-- Witness for the amended C2: viewBox `0 0 2 2`, image at `x = 3` with
size 4: the group carries `translate(3, 0) scale(2, 2)` and the viewBox
maps exactly onto the image rectangle. -/
theorem C2_amended_nominal_bbox_witness :
    ∃ g : Inkscape.GroupElem,
      (Inkscape.vectorize_image cInkEnvS2 0 cImgB (some cArgs)
          ([] ++ Inkscape.Node.image cImgB :: [])).2 =
        Except.ok ([] ++ Inkscape.Node.group g ::
          Inkscape.Node.image { cImgB with style := some "display:none" } :: [])
      ∧ g.id = "vectorized_" ++ cImgB.id
      ∧ Inkscape.mapRectList g.transform ⟨0, 0, 2, 2⟩ =
          (⟨3, 0, 4, 4⟩ : Inkscape.Rect) :=
  C2_amended_nominal_bbox cInkEnvS2 0 cImgB cArgs [] [] [65, 66, 67] "png" "S2"
    "0 0 2 2" ⟨some "0 0 2 2", ["p"]⟩ 2 2 "4" "4" 4 4 3 0
    rfl rfl rfl rfl rfl rfl rfl (by norm_num) (by norm_num) rfl
    (by decide) rfl rfl (by decide) rfl (by simp) rfl

/-- A list starts with itself followed by anything. -/
theorem startsList_append (a b : List Char) : startsList a (a ++ b) = true := by
  induction a with
  | nil => rfl
  | cons c cs ih => simp [startsList, ih]

/-- `takeWhile` keeps a list all of whose elements satisfy the test. -/
theorem takeWhileAll (p : Char → Bool) (a : List Char)
    (h : ∀ c ∈ a, p c = true) : a.takeWhile p = a := by
  induction a with
  | nil => rfl
  | cons c cs ih =>
    simp only [List.takeWhile_cons, h c (by simp), if_true, List.cons.injEq,
      true_and]
    exact ih fun c' hc' => h c' (by simp [hc'])

/-- `takeWhile` stops exactly at the first failing element. -/
theorem takeWhileStop (p : Char → Bool) (a : List Char) (d : Char)
    (b : List Char) (h : ∀ c ∈ a, p c = true) (hd : p d = false) :
    (a ++ d :: b).takeWhile p = a := by
  induction a with
  | nil => simp [List.takeWhile_cons, hd]
  | cons c cs ih =>
    simp only [List.cons_append, List.takeWhile_cons, h c (by simp), if_true,
      List.cons.injEq, true_and]
    exact ih fun c' hc' => h c' (by simp [hc'])

/-- A nonempty string has nonempty character data. -/
theorem string_data_ne (s : String) (h : s ≠ "") : s.data ≠ [] := by
  intro h0
  exact h (String.ext h0)

/-- The data-URI regex succeeds on a well-formed data URI: a nonempty word
format, the `;base64,` marker, and a nonempty payload without a newline —
and yields exactly the format and payload groups. -/
theorem dataUriParse_wellformed (fmt payload : String)
    (hfmt : ∀ c ∈ fmt.data, isWordChar c = true) (hfne : fmt ≠ "")
    (hpl : ∀ c ∈ payload.data, ¬ c = '\n') (hpne : payload ≠ "") :
    Inkscape.dataUriParse ("data:image/" ++ fmt ++ ";base64," ++ payload) =
      some (fmt, payload) := by
  have hdata : ("data:image/" ++ fmt ++ ";base64," ++ payload).data =
      Inkscape.dataUriFront ++ (fmt.data ++
        (';' :: "base64,".data ++ payload.data)) := by
    simp [String.data_append, Inkscape.dataUriFront, List.append_assoc]
  have hmark : (';' :: "base64,".data ++ payload.data) =
      Inkscape.b64Mark ++ payload.data := rfl
  unfold Inkscape.dataUriParse
  rw [hdata]
  simp only [startsList_append, List.drop_left, if_true, ite_true]
  rw [hmark]
  rw [show List.takeWhile isWordChar (fmt.data ++
        (Inkscape.b64Mark ++ payload.data)) = fmt.data from
    takeWhileStop isWordChar fmt.data ';' ("base64,".data ++ payload.data)
      hfmt (by decide)]
  rw [List.drop_left]
  rw [startsList_append, List.drop_left]
  rw [takeWhileAll _ payload.data (fun c hc => by simpa using hpl c hc)]
  simp [string_data_ne fmt hfne, string_data_ne payload hpne]

/-- An href starting with `file://` is nonempty and does not start with
`data:`. -/
theorem fileUrl_not_data (h : String) (hf : pyStartsWith "file://" h = true) :
    h ≠ "" ∧ pyStartsWith "data:" h = false := by
  unfold pyStartsWith at hf ⊢
  rcases hd : h.data with _ | ⟨c, cs⟩
  · rw [hd] at hf
    simp [startsList] at hf
  · rw [hd] at hf
    have hc : c = 'f' := by
      rw [show startsList "file://".data (c :: cs) =
        (decide (('f' : Char) = c) && startsList "ile://".data cs) from rfl] at hf
      have h1 := ((Bool.and_eq_true _ _).mp hf).1
      simpa [eq_comm] using of_decide_eq_true h1
    constructor
    · intro h0
      rw [h0] at hd
      simp at hd
    · subst hc
      rw [show startsList "data:".data ('f' :: cs) =
        (decide (('d' : Char) = 'f') && startsList "ata:".data cs) from rfl]
      simp

/-- `extract_image_data` on a well-formed data URI: the resolved bytes are
exactly the base64 decoding of the payload when it decodes, and the decode
exception propagates when it does not. -/
theorem extract_data_uri (env : Inkscape.InkEnv) (img : Inkscape.ImageElem)
    (fmt payload : String)
    (hhref : Inkscape.pyOr img.xlinkHref img.plainHref =
      some ("data:image/" ++ fmt ++ ";base64," ++ payload))
    (hfmt : ∀ c ∈ fmt.data, isWordChar c = true) (hfne : fmt ≠ "")
    (hpl : ∀ c ∈ payload.data, ¬ c = '\n') (hpne : payload ≠ "") :
    Inkscape.extract_image_data env img =
      (match env.b64decode payload with
       | some bs => Except.ok (some (bs, fmt))
       | none => Except.error Inkscape.b64Err) := by
  have hne : ("data:image/" ++ fmt ++ ";base64," ++ payload) ≠ "" := by
    intro h0
    have := congrArg String.data h0
    simp [String.data_append] at this
  have hstarts : pyStartsWith "data:"
      ("data:image/" ++ fmt ++ ";base64," ++ payload) = true := by
    unfold pyStartsWith
    have : ("data:image/" ++ fmt ++ ";base64," ++ payload).data =
        "data:".data ++ ("image/".data ++ fmt.data ++
          ";base64,".data ++ payload.data) := by
      simp [String.data_append]
    rw [this, startsList_append]
  have hparse := dataUriParse_wellformed fmt payload hfmt hfne hpl hpne
  rcases hdec : env.b64decode payload with _ | bs <;>
    simp [Inkscape.extract_image_data, hhref, hne, hstarts, hparse, hdec]

/-- `extract_image_data` on a `file://` href reads the byte content at the
URL's path component, or returns no data when the file does not exist. -/
theorem extract_file_url (env : Inkscape.InkEnv) (img : Inkscape.ImageElem)
    (h : String)
    (hhref : Inkscape.pyOr img.xlinkHref img.plainHref = some h)
    (hf : pyStartsWith "file://" h = true) :
    Inkscape.extract_image_data env img =
      (match env.fileContents (Inkscape.fileUrlPath h) with
       | some bs =>
           Except.ok (some (bs, Inkscape.extNoDot (Inkscape.fileUrlPath h)))
       | none => Except.ok none) := by
  obtain ⟨hne, hdataF⟩ := fileUrl_not_data h hf
  rcases hfc : env.fileContents (Inkscape.fileUrlPath h) with _ | bs <;>
    simp [Inkscape.extract_image_data, hhref, hne, hdataF, hf, hfc]

/-- `extract_image_data` on a relative (non-`data:`, non-`file://`,
non-`http`) href reads the byte content at the path joined with the SVG
document's directory, or returns no data when it does not exist. -/
theorem extract_relative (env : Inkscape.InkEnv) (img : Inkscape.ImageElem)
    (h : String)
    (hhref : Inkscape.pyOr img.xlinkHref img.plainHref = some h)
    (hne : h ≠ "")
    (hd : pyStartsWith "data:" h = false)
    (hf : pyStartsWith "file://" h = false)
    (hh : pyStartsWith "http" h = false) :
    Inkscape.extract_image_data env img =
      (match env.fileContents (Inkscape.pyJoin env.svgDir h) with
       | some bs =>
           Except.ok (some (bs, Inkscape.extNoDot (Inkscape.pyJoin env.svgDir h)))
       | none => Except.ok none) := by
  rcases hfc : env.fileContents (Inkscape.pyJoin env.svgDir h) with _ | bs <;>
    simp [Inkscape.extract_image_data, hhref, hne, hd, hf, hh, hfc]

/-- **C7 amended** — Href resolution in the Inkscape shim: a well-formed
data URI resolves to the base64 decoding of its payload (when it decodes);
a `file://` URI resolves to the content of the file at the URL's path; a
relative href resolves to the content of the file at the path joined with
the document directory.  When resolution yields no data, the shim reports
one `errormsg` and leaves the parent unchanged, creating no temporary
file.  But a data-URI payload that raises during base64 decoding makes the
exception propagate uncaught out of the shim (still with no mutation and
no temporary file) instead of producing the shim's own error message. -/
theorem C7_href_resolution :
    (∀ (env : Inkscape.InkEnv) (img : Inkscape.ImageElem) (fmt payload : String),
        Inkscape.pyOr img.xlinkHref img.plainHref =
          some ("data:image/" ++ fmt ++ ";base64," ++ payload) →
        (∀ c ∈ fmt.data, isWordChar c = true) → fmt ≠ "" →
        (∀ c ∈ payload.data, ¬ c = '\n') → payload ≠ "" →
        Inkscape.extract_image_data env img =
          (match env.b64decode payload with
           | some bs => Except.ok (some (bs, fmt))
           | none => Except.error Inkscape.b64Err))
    ∧ (∀ (env : Inkscape.InkEnv) (img : Inkscape.ImageElem) (h : String),
        Inkscape.pyOr img.xlinkHref img.plainHref = some h →
        pyStartsWith "file://" h = true →
        Inkscape.extract_image_data env img =
          (match env.fileContents (Inkscape.fileUrlPath h) with
           | some bs =>
               Except.ok (some (bs, Inkscape.extNoDot (Inkscape.fileUrlPath h)))
           | none => Except.ok none))
    ∧ (∀ (env : Inkscape.InkEnv) (img : Inkscape.ImageElem) (h : String),
        Inkscape.pyOr img.xlinkHref img.plainHref = some h →
        h ≠ "" → pyStartsWith "data:" h = false →
        pyStartsWith "file://" h = false → pyStartsWith "http" h = false →
        Inkscape.extract_image_data env img =
          (match env.fileContents (Inkscape.pyJoin env.svgDir h) with
           | some bs =>
               Except.ok (some (bs, Inkscape.extNoDot (Inkscape.pyJoin env.svgDir h)))
           | none => Except.ok none))
    ∧ (∀ (env : Inkscape.InkEnv) (k : Nat) (img : Inkscape.ImageElem)
        (settings : Option VtracerArgs) (parent : List Inkscape.Node),
        Inkscape.extract_image_data env img = Except.ok none →
        Inkscape.vectorize_image env k img settings parent =
          ([Ev.errMsg "Could not read image data from element"],
           Except.ok parent))
    ∧ (∀ (env : Inkscape.InkEnv) (k : Nat) (img : Inkscape.ImageElem)
        (settings : Option VtracerArgs) (parent : List Inkscape.Node)
        (e : String),
        Inkscape.extract_image_data env img = Except.error e →
        Inkscape.vectorize_image env k img settings parent =
          ([], Except.error e)) := by
  refine ⟨extract_data_uri, extract_file_url, extract_relative, ?_, ?_⟩
  · intro env k img settings parent hext
    simp [Inkscape.vectorize_image, hext]
  · intro env k img settings parent e hext
    simp [Inkscape.vectorize_image, hext]

/-- **C7** counterexample — The data URI `data:image/png;base64,A` has a
payload whose decoding raises (`binascii.Error`, as a one-character base64
string is invalid); the decode happens outside every `try`, so the shim
produces *no* user-visible error message and the exception propagates
uncaught out of `effect` — refuting the claim that an unresolvable href
produces a user-visible error.  (No mutation happens, and no temporary
file is created.) -/
theorem C7_counterexample :
    Inkscape.extract_image_data cInkEnv cImgBad = Except.error Inkscape.b64Err
    ∧ Inkscape.vectorize_image cInkEnv 0 cImgBad (some cArgs)
        [Inkscape.Node.image cImgBad] = ([], Except.error Inkscape.b64Err)
    ∧ (Inkscape.effect cInkEnv cOpts [Inkscape.Node.image cImgBad]).2 =
        Except.error Inkscape.b64Err
    ∧ countEv isErrMsg
        (Inkscape.effect cInkEnv cOpts [Inkscape.Node.image cImgBad]).1 = 0
    ∧ countEv isMutation
        (Inkscape.effect cInkEnv cOpts [Inkscape.Node.image cImgBad]).1 = 0
    ∧ countEv isTmpEv
        (Inkscape.effect cInkEnv cOpts [Inkscape.Node.image cImgBad]).1 = 0 := by
  refine ⟨rfl, rfl, rfl, rfl, rfl, rfl⟩

/-- Witness for the amended C7: the embedded data URI of `cImgA` resolves
to the decoded bytes; a missing relative file reports and leaves the parent
unchanged. -/
theorem C7_href_resolution_witness :
    Inkscape.extract_image_data cInkEnv cImgA =
      Except.ok (some ([65, 66, 67], "png"))
    ∧ Inkscape.vectorize_image cInkEnv 0
        ⟨"iw", some "missing.png", none, none, none, none, none, none⟩
        (some cArgs) [] =
      ([Ev.errMsg "Could not read image data from element"], Except.ok []) := by
  constructor
  · have h := C7_href_resolution.1 cInkEnv cImgA "png" "QUJD" rfl
      (by decide) (by decide) (by decide) (by decide)
    rw [h]
    rfl
  · exact C7_href_resolution.2.2.2.1 cInkEnv 0
      ⟨"iw", some "missing.png", none, none, none, none, none, none⟩
      (some cArgs) [] rfl

/-- **C6** — Exceptions from the library call or the host-API steps around
it are opaque and terminal.  The first two conjuncts are the no-retry
facts: each shim invokes the library at most once per run/image.  The GIMP
conjuncts: whenever the PNG export, the library call or the SVG write
raises `e` in a run that reached the temp file, the shim returns a single
`EXECUTION_ERROR` carrying exactly the stringified `e`, with no `errormsg`
and no mutation event (no file written, nothing shown as success).  The
Inkscape conjuncts: a raising library call or output parse yields exactly
one `errormsg` carrying the stringified `e`, the parent list is returned
unchanged, and the temp file is still deleted. -/
theorem C6_exceptions_caught_stringified_terminal :
    (∀ (env : Gimp.GimpEnv) (cfg : Gimp.GimpConfig),
        countEv isLibCall (Gimp.vectorize env cfg).1 ≤ 1)
    ∧ (∀ (env : Inkscape.InkEnv) (k : Nat) (img : Inkscape.ImageElem)
        (settings : Option VtracerArgs) (parent : List Inkscape.Node),
        countEv isLibCall (Inkscape.vectorize_image env k img settings parent).1 ≤ 1)
    ∧ (∀ (env : Gimp.GimpEnv) (cfg : Gimp.GimpConfig) (e : String),
        env.vtracerAvailable = true → env.nDrawables = 1 →
        ¬(env.interactive = true ∧ env.dialogAccepted = false) →
        env.unlinkOk env.tmpInputName = true →
        (env.exportResult env.tmpInputName = Except.error e
          ∨ (env.exportResult env.tmpInputName = Except.ok ()
              ∧ ∀ q b, env.convert q b = Except.error e)
          ∨ (env.exportResult env.tmpInputName = Except.ok ()
              ∧ (∀ q b, ∃ s, env.convert q b = Except.ok s)
              ∧ ∀ q, env.writeResult q = Except.error e)) →
        (Gimp.vectorize env cfg).2 =
            Except.ok (Gimp.PDBStatus.executionError, e)
          ∧ countEv isMutation (Gimp.vectorize env cfg).1 = 0
          ∧ countEv isErrMsg (Gimp.vectorize env cfg).1 = 0)
    ∧ (∀ (env : Inkscape.InkEnv) (k : Nat) (img : Inkscape.ImageElem)
        (args : VtracerArgs) (parent : List Inkscape.Node)
        (bs : Bytes) (fmt : String) (x y : ℚ) (e : String),
        Inkscape.extract_image_data env img = Except.ok (some (bs, fmt)) →
        Inkscape.attrFloat env img.x = some x →
        Inkscape.attrFloat env img.y = some y →
        env.unlinkOk (env.tmpName k (Inkscape.tmpSuffix fmt)) = true →
        (env.convert (env.tmpName k (Inkscape.tmpSuffix fmt)) args = Except.error e
          ∨ (∃ svg, env.convert (env.tmpName k (Inkscape.tmpSuffix fmt)) args
                = Except.ok svg
              ∧ env.parseSvg svg = Except.error e)) →
        Inkscape.vectorize_image env k img (some args) parent =
          ([Ev.tmpCreate (env.tmpName k (Inkscape.tmpSuffix fmt)),
            Ev.libCall (env.tmpName k (Inkscape.tmpSuffix fmt)) args,
            Ev.errMsg ("Error vectorizing image: " ++ e),
            Ev.tmpDelete (env.tmpName k (Inkscape.tmpSuffix fmt))],
           Except.ok parent)) := by
  refine ⟨gimp_vectorize_libCall_count, vectorize_image_libCall_count, ?_, ?_⟩
  · intro env cfg e h1 h2 h3 h4 hcase
    rcases hcase with hexp | ⟨hexp, hconv⟩ | ⟨hexp, hconv, hw⟩
    · constructor
      · simp [Gimp.vectorize, Gimp.gimpTryBody, h1, h2, h3, h4, hexp]
      constructor <;>
        simp [Gimp.vectorize, Gimp.gimpTryBody, h1, h2, h3, h4, hexp,
          apply_ite Prod.fst, countEv, isMutation, isErrMsg]
    · constructor
      · simp [Gimp.vectorize, Gimp.gimpTryBody, h1, h2, h3, h4, hexp, hconv]
      constructor <;>
        simp [Gimp.vectorize, Gimp.gimpTryBody, h1, h2, h3, h4, hexp, hconv,
          apply_ite Prod.fst, countEv, isMutation, isErrMsg]
    · obtain ⟨svg, hsvg⟩ := hconv env.tmpInputName
        ⟨if cfg.colorMode = 1 then "binary" else "color",
         cfg.filterSpeckle, cfg.colorPrecision, cfg.cornerThreshold,
         cfg.segmentLength, cfg.spliceThreshold,
         if cfg.pathPrecisionChoice = "low" then 1
         else if cfg.pathPrecisionChoice = "medium" then 2
         else if cfg.pathPrecisionChoice = "high" then 3
         else 2⟩
      constructor
      · simp [Gimp.vectorize, Gimp.gimpTryBody, h1, h2, h3, h4, hexp, hsvg, hw]
      constructor <;>
        simp [Gimp.vectorize, Gimp.gimpTryBody, h1, h2, h3, h4, hexp, hsvg, hw,
          apply_ite Prod.fst, countEv, isMutation, isErrMsg]
  · intro env k img args parent bs fmt x y e hext hx hy h4 hcase
    rcases hcase with hconv | ⟨svg, hconv, hparse⟩
    · simp [Inkscape.vectorize_image, Inkscape.inkTryBody, hext, hx, hy, h4, hconv]
    · simp [Inkscape.vectorize_image, Inkscape.inkTryBody, hext, hx, hy, h4,
        hconv, hparse]

/-- Witness for C6: a uniformly raising library call in both shims. -/
theorem C6_exceptions_caught_stringified_terminal_witness :
    (Gimp.vectorize { cGimpEnv with convert := fun _ _ => .error "boom" } cGimpCfg).2 =
        Except.ok (Gimp.PDBStatus.executionError, "boom")
    ∧ Inkscape.vectorize_image { cInkEnv with convert := fun _ _ => .error "boom" }
        0 cImgA (some cArgs) [Inkscape.Node.image cImgA] =
        ([Ev.tmpCreate "/tmp/img.png", Ev.libCall "/tmp/img.png" cArgs,
          Ev.errMsg ("Error vectorizing image: " ++ "boom"),
          Ev.tmpDelete "/tmp/img.png"],
         Except.ok [Inkscape.Node.image cImgA]) :=
  ⟨(C6_exceptions_caught_stringified_terminal.2.2.1
      { cGimpEnv with convert := fun _ _ => .error "boom" } cGimpCfg "boom"
      rfl rfl (by decide) rfl (Or.inr (Or.inl ⟨rfl, fun q b => rfl⟩))).1,
   C6_exceptions_caught_stringified_terminal.2.2.2
      { cInkEnv with convert := fun _ _ => .error "boom" } 0 cImgA cArgs
      [Inkscape.Node.image cImgA] [65, 66, 67] "png" 0 0 "boom"
      rfl rfl rfl rfl (Or.inl rfl)⟩

/-- **C5** — When the vtracer library failed to import, both shims abort
with a user-visible report (an `EXECUTION_ERROR` return for GIMP, an
`errormsg` for Inkscape) and an otherwise empty trace: no temporary file is
created, no export or tracing step runs, and the host document is not
mutated. -/
theorem C5_unavailable_aborts_before_effects :
    (∀ (env : Gimp.GimpEnv) (cfg : Gimp.GimpConfig),
        env.vtracerAvailable = false →
        Gimp.vectorize env cfg =
          ([], Except.ok (Gimp.PDBStatus.executionError, Gimp.gimpMissingMsg)))
    ∧ (∀ (env : Inkscape.InkEnv) (o : Inkscape.InkOptions) (sel : List Inkscape.Node),
        env.vtracerAvailable = false →
        Inkscape.effect env o sel =
          ([Ev.errMsg Inkscape.inkMissingMsg], Except.ok ())) := by
  constructor
  · intro env cfg h
    simp [Gimp.vectorize, h]
  · intro env o sel h
    simp [Inkscape.effect, h]

/-- Witness for C5: concrete runs with the library unavailable. -/
theorem C5_unavailable_aborts_before_effects_witness :
    Gimp.vectorize { cGimpEnv with vtracerAvailable := false } cGimpCfg =
      ([], Except.ok (Gimp.PDBStatus.executionError, Gimp.gimpMissingMsg))
    ∧ Inkscape.effect { cInkEnv with vtracerAvailable := false } cOpts
        [Inkscape.Node.image cImgA] =
      ([Ev.errMsg Inkscape.inkMissingMsg], Except.ok ()) :=
  ⟨C5_unavailable_aborts_before_effects.1 _ cGimpCfg rfl,
   C5_unavailable_aborts_before_effects.2 _ cOpts _ rfl⟩

/-- **C8** — A wrong selection (GIMP: a drawable count other than one;
Inkscape: a selection without image elements) produces exactly one terminal
user-visible message and nothing else: the trace is otherwise empty, so no
temporary file is created and nothing is mutated. -/
theorem C8_wrong_selection_single_message :
    (∀ (env : Gimp.GimpEnv) (cfg : Gimp.GimpConfig),
        env.vtracerAvailable = true → env.nDrawables ≠ 1 →
        Gimp.vectorize env cfg =
          ([], Except.ok (Gimp.PDBStatus.callingError, Gimp.wrongSelectionMsg)))
    ∧ (∀ (env : Inkscape.InkEnv) (o : Inkscape.InkOptions) (sel : List Inkscape.Node),
        env.vtracerAvailable = true → Inkscape.imageNodes sel = [] →
        Inkscape.effect env o sel =
          ([Ev.errMsg Inkscape.noImagesMsg], Except.ok ())) := by
  constructor
  · intro env cfg h hn
    simp [Gimp.vectorize, h, hn]
  · intro env o sel h hsel
    simp [Inkscape.effect, h, hsel]

/-- Witness for C8: two selected drawables in GIMP; a selection with only a
non-image element in Inkscape. -/
theorem C8_wrong_selection_single_message_witness :
    Gimp.vectorize { cGimpEnv with nDrawables := 2 } cGimpCfg =
      ([], Except.ok (Gimp.PDBStatus.callingError, Gimp.wrongSelectionMsg))
    ∧ Inkscape.effect cInkEnv cOpts [Inkscape.Node.other "rect"] =
      ([Ev.errMsg Inkscape.noImagesMsg], Except.ok ()) :=
  ⟨C8_wrong_selection_single_message.1 _ cGimpCfg rfl (by decide),
   C8_wrong_selection_single_message.2 _ cOpts _ rfl rfl⟩

/-- **C10** — An unrecognized non-`custom` preset makes
`get_preset_settings` return `None`; `effect` then runs every selected
image with `None` settings, and each such image produces the caught
`TypeError` message, no library call, no insertion and no hiding, while the
temporary file created for it is still deleted. -/
theorem C10_invalid_preset_error_and_cleanup :
    (∀ p : String, p ≠ "bw" → p ≠ "poster" → p ≠ "photo" →
        Inkscape.get_preset_settings p = none)
    ∧ (∀ (env : Inkscape.InkEnv) (k : Nat) (img : Inkscape.ImageElem)
        (parent : List Inkscape.Node) (bs : Bytes) (fmt : String) (x y : ℚ),
        Inkscape.extract_image_data env img = Except.ok (some (bs, fmt)) →
        Inkscape.attrFloat env img.x = some x →
        Inkscape.attrFloat env img.y = some y →
        env.unlinkOk (env.tmpName k (Inkscape.tmpSuffix fmt)) = true →
        Inkscape.vectorize_image env k img none parent =
          ([Ev.tmpCreate (env.tmpName k (Inkscape.tmpSuffix fmt)),
            Ev.errMsg ("Error vectorizing image: " ++ Inkscape.noneSubscriptErr),
            Ev.tmpDelete (env.tmpName k (Inkscape.tmpSuffix fmt))],
           Except.ok parent))
    ∧ (∀ (env : Inkscape.InkEnv) (o : Inkscape.InkOptions) (sel : List Inkscape.Node),
        env.vtracerAvailable = true →
        o.preset ≠ "custom" → o.preset ≠ "bw" → o.preset ≠ "poster" →
        o.preset ≠ "photo" → Inkscape.imageNodes sel ≠ [] →
        Inkscape.effect env o sel =
          Inkscape.effectLoop env none (Inkscape.imageNodes sel) 0) := by
  refine ⟨?_, ?_, ?_⟩
  · intro p h1 h2 h3
    simp [Inkscape.get_preset_settings, h1, h2, h3]
  · intro env k img parent bs fmt x y hext hx hy hul
    simp [Inkscape.vectorize_image, Inkscape.inkTryBody, hext, hx, hy, hul]
  · intro env o sel h h1 h2 h3 h4 hsel
    simp [Inkscape.effect, h, h1, h2, h3, h4, hsel,
      Inkscape.get_preset_settings, List.isEmpty_iff]

/-- Witness for C10: preset `"weird"`, one data-URI image. -/
theorem C10_invalid_preset_error_and_cleanup_witness :
    Inkscape.get_preset_settings "weird" = none
    ∧ Inkscape.vectorize_image cInkEnv 0 cImgA none [Inkscape.Node.image cImgA] =
        ([Ev.tmpCreate "/tmp/img.png",
          Ev.errMsg ("Error vectorizing image: " ++ Inkscape.noneSubscriptErr),
          Ev.tmpDelete "/tmp/img.png"],
         Except.ok [Inkscape.Node.image cImgA])
    ∧ Inkscape.effect cInkEnv { cOpts with preset := "weird" }
        [Inkscape.Node.image cImgA] =
        Inkscape.effectLoop cInkEnv none
          (Inkscape.imageNodes [Inkscape.Node.image cImgA]) 0 := by
  refine ⟨C10_invalid_preset_error_and_cleanup.1 "weird" (by decide) (by decide) (by decide),
    C10_invalid_preset_error_and_cleanup.2.1 cInkEnv 0 cImgA _ [65, 66, 67] "png" 0 0
      rfl rfl rfl rfl,
    C10_invalid_preset_error_and_cleanup.2.2 cInkEnv _ _ rfl (by decide) (by decide)
      (by decide) (by decide) (by simp [Inkscape.imageNodes])⟩

/-- **C4** counterexample — With `os.unlink` failing during cleanup, both
shims end in an uncaught exception (`Except.error`), i.e. an error *is*
raised to the host; the Inkscape run produces no `errormsg` for it either.
This refutes the claim that a failing deletion is silently ignored. -/
theorem C4_counterexample :
    (Gimp.vectorize { cGimpEnv with unlinkOk := fun _ => false } cGimpCfg).2 =
      Except.error Gimp.unlinkErr
    ∧ (Inkscape.effect { cInkEnv with unlinkOk := fun _ => false } cOpts
        [Inkscape.Node.image cImgA]).2 = Except.error Inkscape.unlinkErr
    ∧ countEv isErrMsg
        ((Inkscape.effect { cInkEnv with unlinkOk := fun _ => false } cOpts
          [Inkscape.Node.image cImgA]).1) = 0 :=
  ⟨rfl, rfl, by decide⟩

/-- **C4 amended** — Cleanup only guards against the file being already
absent (the `os.path.exists` check); when deleting the temporary input file
itself fails, the exception propagates uncaught to the host in both shims
(no shim-level message is produced for it). -/
theorem C4_amended_deletion_failure_propagates :
    (∀ (env : Gimp.GimpEnv) (cfg : Gimp.GimpConfig),
        env.vtracerAvailable = true → env.nDrawables = 1 →
        ¬(env.interactive = true ∧ env.dialogAccepted = false) →
        env.unlinkOk env.tmpInputName = false →
        (Gimp.vectorize env cfg).2 = Except.error Gimp.unlinkErr)
    ∧ (∀ (env : Inkscape.InkEnv) (k : Nat) (img : Inkscape.ImageElem)
        (settings : Option VtracerArgs) (parent : List Inkscape.Node)
        (bs : Bytes) (fmt : String) (x y : ℚ),
        Inkscape.extract_image_data env img = Except.ok (some (bs, fmt)) →
        Inkscape.attrFloat env img.x = some x →
        Inkscape.attrFloat env img.y = some y →
        env.unlinkOk (env.tmpName k (Inkscape.tmpSuffix fmt)) = false →
        (Inkscape.vectorize_image env k img settings parent).2 =
          Except.error Inkscape.unlinkErr) := by
  constructor
  · intro env cfg h hn hd hu
    simp [Gimp.vectorize, h, hn, hd, hu]
  · intro env k img settings parent bs fmt x y hext hx hy hu
    simp [Inkscape.vectorize_image, hext, hx, hy, hu]

/-- Witness for the amended C4: the counterexample environments satisfy its
hypotheses. -/
theorem C4_amended_deletion_failure_propagates_witness :
    (Gimp.vectorize { cGimpEnv with unlinkOk := fun _ => false } cGimpCfg).2 =
      Except.error Gimp.unlinkErr
    ∧ (Inkscape.vectorize_image { cInkEnv with unlinkOk := fun _ => false } 0 cImgA
        (some cArgs) [Inkscape.Node.image cImgA]).2 = Except.error Inkscape.unlinkErr :=
  ⟨C4_amended_deletion_failure_propagates.1 _ cGimpCfg rfl rfl (by decide) rfl,
   C4_amended_deletion_failure_propagates.2 _ 0 cImgA (some cArgs) _ [65, 66, 67] "png"
     0 0 rfl rfl rfl rfl⟩
